import Mathlib

/-!
Verification of the ParallelRunner orchestrator
(source: tensorforce/execution/parallel_runner.py).

The source is shallowly embedded: Python objects become explicit state
records, the stateful runner loop becomes a fuel-indexed interpreter over a
RunnerState record, exceptions become an explicit error type (errors carry
the state at the raise point, mirroring the fact that a propagating Python
exception leaves the object fields as they were), and the external
collaborators (environments, agent, user callbacks) become scripts: lists of
the answers they give to successive calls.  Rewards and scores are modelled
as integers; only their ordering and sums matter to the properties below.
Wall-clock time is modelled by a ghost counter bumped once per timed call;
only the number of ledgered timing entries matters to the properties below.
The tqdm progress-display wrapping (source lines 201 to 257) only renders a
console bar and passes the inner callback result through, so it is omitted
(display is out of scope for the orchestrator design).
-/

/-- Python runtime errors that the embedded code can raise. -/
inductive PyErr where
  | typeError
  | attributeError
  | nameError
  | unboundLocalError
  | assertionError
  /-- the interpreter ran out of fuel while the loop was still running -/
  | fuelExhausted
  /-- a busy-poll loop (source lines 361 to 364) that never finds a ready
  observation: the Python code would spin forever -/
  | hang
deriving DecidableEq, Repr

/-- Python values returned by user callbacks: booleans, or non-boolean
values (modelled by integers and None), which Python treats by truthiness. -/
inductive PyVal where
  | pybool (b : Bool)
  | pyint (n : Int)
  | pynone
deriving DecidableEq, Repr

/-- Python truthiness of a callback result. -/
def truthy : PyVal → Bool
  | .pybool b => b
  | .pyint n => n != 0
  | .pynone => false

/-- Python isinstance(x, bool). -/
def isBool : PyVal → Bool
  | .pybool _ => true
  | _ => false

/-- Python `a and b`: returns `a` when `a` is falsy, otherwise `b`. -/
def pyAnd (a b : PyVal) : PyVal :=
  if truthy a then b else a

/-!
## CallbackGate: sequential_callback (source lines 178 to 186)

A user callback is modelled as a state transformer on an abstract effect
state σ together with its returned PyVal; invoking it both performs its
side effect and yields its result.
-/

/-- One iteration of the loop body of sequential_callback (lines 181 to 184):
the callback fn is invoked unconditionally, then the accumulated result is
combined with Python `and` only while the accumulator is still a boolean
(the source tests isinstance(result, bool), not isinstance(x, bool)). -/
def sequentialCallbackStep {σ : Type} (acc : σ × PyVal) (fn : σ → σ × PyVal) :
    σ × PyVal :=
  let st := acc.1
  let result := acc.2
  let out := fn st
  if isBool result then (out.1, pyAnd result out.2) else (out.1, result)

/-- sequential_callback (source lines 179 to 185): fold the registered
callbacks over the initial accumulator True. -/
def sequential_callback {σ : Type} (callback : List (σ → σ × PyVal)) (st : σ) :
    σ × PyVal :=
  callback.foldl sequentialCallbackStep (st, .pybool true)

/-- The list of values returned by the callbacks when invoked in order,
threading the effect state. -/
def callbackOutputs {σ : Type} : List (σ → σ × PyVal) → σ → List PyVal
  | [], _ => []
  | fn :: rest, st =>
    let out := fn st
    out.2 :: callbackOutputs rest out.1

/-- The effect of invoking every callback in order, ignoring results. -/
def invokeAll {σ : Type} : List (σ → σ × PyVal) → σ → σ
  | [], st => st
  | fn :: rest, st => invokeAll rest (fn st).1

/-!
## EvaluationTrack: best-score snapshot logic (source lines 570 to 579)

This is the body of the `if self.save_best_agent is not None` branch of
handle_terminal_evaluation, as a function of the stored best score and the
new episode score.  (In actual execution the enclosing handler raises
UnboundLocalError at line 566 before reaching this code; see
handle_terminal_evaluation below.)
-/

/-- One update of best_evaluation_score (source lines 573 to 579).  Returns
the new stored best and whether agent.save was triggered: a None best is
initialized without saving (lines 573 to 574); a strictly greater score
replaces the best and saves (lines 575 to 579). -/
def saveBestUpdate (best_evaluation_score : Option Int) (evaluation_score : Int) :
    Option Int × Bool :=
  match best_evaluation_score with
  | none => (some evaluation_score, false)
  | some best =>
    if evaluation_score > best then (some evaluation_score, true)
    else (some best, false)

/-- Fold saveBestUpdate over a sequence of evaluation-episode scores,
collecting for each episode whether a snapshot save was triggered. -/
def saveBestTraceAux (best : Option Int) : List Int → List Bool
  | [] => []
  | sc :: rest =>
    let out := saveBestUpdate best sc
    out.2 :: saveBestTraceAux out.1 rest

/-- Save decisions for a run of evaluation episodes with the given scores,
starting (as in run(), line 279) with no stored best. -/
def saveBestTrace (scores : List Int) : List Bool :=
  saveBestTraceAux none scores

/-!
## Observable events

Calls the orchestrator makes into its collaborators, recorded in order.
startReset and startExecute and agentAct additionally record the value of
the finished flag at the moment the call is issued, so that temporal
properties about the end of the run can be stated on the trace.
-/

/-- Calls from the runner into agent and environments. -/
inductive Event where
  | agentReset
  | startReset (i : Nat) (finishedAtIssue : Bool)
  | startExecute (i : Nat) (finishedAtIssue : Bool)
  | agentAct (i : Nat) (finishedAtIssue : Bool)
  | agentObserve (i : Nat) (terminal : Option Int)
  | agentSave
  | agentClose
  | envClose (i : Nat)
  | evalEnvClose
deriving DecidableEq, Repr

/-!
## close (source lines 119 to 129)

The tqdm close call renders nothing observable and is skipped.  Note the
final line 129: an unconditional self.agent.close(), executed regardless of
is_agent_external (and in addition to the guarded close at line 123).
-/

/-- The sequence of close calls issued by ParallelRunner.close(), as a
function of which collaborators were externally supplied. -/
def closeEvents (is_agent_external is_environment_external : Bool)
    (numEnvs : Nat) (hasEvalEnv is_eval_environment_external : Bool) :
    List Event :=
  (if is_agent_external then [] else [Event.agentClose]) ++
  (if is_environment_external then []
   else (List.range numEnvs).map Event.envClose) ++
  (if hasEvalEnv && !is_eval_environment_external then [Event.evalEnvClose]
   else []) ++
  [Event.agentClose]

/-!
## The environment plus num_parallel constructor path (source lines 85 to 93)

On this path self.environments is the empty list built at line 56, and the
loop body does `self.environments(environment)`: it calls the list object
instead of appending to it, which raises TypeError on the first iteration.
-/

/-- Python `self.environments(environment)`: calling a list object raises
TypeError (line 93). -/
def environmentsListCall (_envs : List Unit) (_arg : Unit) :
    Except PyErr (List Unit) :=
  .error .typeError

/-- The `for _ in range(num_parallel)` loop of __init__ (lines 89 to 93),
starting from the empty environments list of line 56.  Environment.create
itself is external and modelled as succeeding. -/
def initEnvironmentsViaNumParallel (num_parallel : Nat) :
    Except PyErr (List Unit) :=
  (List.range num_parallel).foldlM (fun envs _ => environmentsListCall envs ()) []

/-!
## The runner state

One record holding every `self.` field that run() and its handlers read or
write, together with the collaborator scripts and the bookkeeping the
shallow embedding needs (script positions, call counters, ghost clock,
event trace).  join_agent_calls never survives past line 312 of the source
(see runRunner below), so the fields that the joint mode would redeclare as
scalars (episode_agent_second, episode_start, lines 289 to 294) are carried
in their list form.
-/

/-- An observation a session hands back from pollObservation:
terminal none is the post-reset observation (Python None), terminal some t
carries the integer terminal code; the reward is none exactly for the
post-reset observation. -/
structure Obs where
  terminal : Option Int
  reward : Option Int
deriving DecidableEq, Repr

/-- The full mutable state of a ParallelRunner during run(). -/
structure RunnerState where
  -- configuration fixed by run() (lines 145 to 175); none means unbounded
  num_episodes : Option Nat
  num_timesteps : Option Nat
  num_updates : Option Nat
  join_agent_calls : Bool
  sync_timesteps : Bool
  sync_episodes : Bool
  callback_episode_frequency : Option Nat
  callback_timestep_frequency : Option Nat
  -- configuration fixed by __init__
  save_best_agent : Bool
  has_evaluation : Bool
  -- collaborator scripts (immutable during the run)
  trainScripts : List (List (Option Obs))
  evalScript : List (Option Obs)
  agentObserveResults : List Bool
  callbackResults : List PyVal
  -- counters (lines 196 to 199)
  timesteps : Nat
  episodes : Nat
  updates : Nat
  finished : Bool
  -- per-session episode accumulators (lines 287 to 294)
  episode_reward : List Int
  episode_timestep : List Nat
  episode_agent_second : List Nat
  episode_start : List Nat
  -- training statistics ledger (lines 110 to 113)
  episode_rewards : List Int
  episode_timesteps : List Nat
  episode_seconds : List Nat
  episode_agent_seconds : List Nat
  -- evaluation accumulators and ledger (lines 114 to 117, 297 to 302)
  evaluation_reward : Int
  evaluation_timestep : Nat
  evaluation_agent_second : Nat
  evaluation_rewards : List Int
  evaluation_timesteps : List Nat
  evaluation_seconds : List Nat
  evaluation_agent_seconds : List Nat
  best_evaluation_score : Option Int
  -- loop state (lines 305 to 309)
  prev_terminals : List (Option Int)
  terminals : List (Option Int)
  rewards : List (Option Int)
  -- embedding bookkeeping
  pollPos : List Nat
  observeCalls : Nat
  callbackCalls : Nat
  clock : Nat
  trace : List Event
deriving Repr

/-- Number of sessions in the runner loop: the training sessions plus the
evaluation session when configured (the local environments list of lines
295 to 303). -/
def RunnerState.totalEnvs (s : RunnerState) : Nat :=
  s.trainScripts.length + (if s.has_evaluation then 1 else 0)

/-- The poll script backing session p: a training session script, or the
evaluation session script for the appended last slot. -/
def scriptFor (s : RunnerState) (p : Nat) : List (Option Obs) :=
  if p < s.trainScripts.length then s.trainScripts.getD p [] else s.evalScript

/-- Python `counter >= ceiling` where the ceiling defaults to float inf
(none): inf is never reached. -/
def ceilingReached (ceiling : Option Nat) (counter : Nat) : Bool :=
  match ceiling with
  | none => false
  | some m => m ≤ counter

/-- Python `counter % frequency == 0` where the frequency defaults to float
inf (none): for the counters at hand (always at least 1 after their
increment) `x % inf == 0` is false. -/
def freqGate (frequency : Option Nat) (counter : Nat) : Bool :=
  match frequency with
  | none => false
  | some k => counter % k == 0

/-- Result type of the stateful steps: errors carry the state at the raise
point. -/
abbrev RunResult := Except (PyErr × RunnerState) RunnerState

/-!
## Per-session handlers (source lines 424 to 558)

print statements render only and are skipped.  Each call into the agent
bumps the ghost clock by one, so each timed section contributes one ghost
second to the relevant accumulator.
-/

/-- handle_act (source lines 424 to 446), non-evaluation sessions.  In
joint mode line 428 reads self.actions, an attribute that is never
assigned (the joint path aborts at line 312 before handle_act_joint could
run), so that branch raises AttributeError. -/
def handle_act (s : RunnerState) (p : Nat) : RunResult :=
  if s.join_agent_calls then
    .error (.attributeError, s)
  else
    let timesteps' := s.timesteps + 1
    let epts' := s.episode_timestep.getD p 0 + 1
    let ceil := ceilingReached s.num_timesteps timesteps'
    let gate := !ceil && freqGate s.callback_timestep_frequency epts'
    let cbResult := s.callbackResults.getD s.callbackCalls (PyVal.pybool true)
    .ok { s with
      clock := s.clock + 1,
      episode_agent_second :=
        s.episode_agent_second.set p (s.episode_agent_second.getD p 0 + 1),
      timesteps := timesteps',
      episode_timestep := s.episode_timestep.set p epts',
      callbackCalls := if gate then s.callbackCalls + 1 else s.callbackCalls,
      finished := s.finished || ceil || (gate && !truthy cbResult),
      trace := s.trace ++
        [Event.agentAct p s.finished, Event.startExecute p s.finished] }

/-- handle_observe (source lines 478 to 500), non-evaluation sessions: add
the reward to the episode accumulator (line 482), upgrade a CONTINUE
terminal to FORCED_END 2 when finished is already set (lines 485 to 486),
call agent.observe with the possibly upgraded terminal unless joint mode
(lines 489 to 496), and check the updates ceiling (lines 499 to 500). -/
def handle_observe (s : RunnerState) (p : Nat) : RunnerState :=
  let r := (s.rewards.getD p none).getD 0
  let terminal' :=
    if s.terminals.getD p none = some 0 ∧ s.finished then some 2
    else s.terminals.getD p none
  let updated := s.agentObserveResults.getD s.observeCalls false
  let updates' :=
    if s.join_agent_calls then s.updates
    else s.updates + (if updated then 1 else 0)
  { s with
    episode_reward :=
      s.episode_reward.set p (s.episode_reward.getD p 0 + r),
    terminals := s.terminals.set p terminal',
    clock := if s.join_agent_calls then s.clock else s.clock + 1,
    observeCalls :=
      if s.join_agent_calls then s.observeCalls else s.observeCalls + 1,
    episode_agent_second :=
      if s.join_agent_calls then s.episode_agent_second
      else s.episode_agent_second.set p (s.episode_agent_second.getD p 0 + 1),
    updates := updates',
    finished := s.finished || ceilingReached s.num_updates updates',
    trace :=
      if s.join_agent_calls then s.trace
      else s.trace ++ [Event.agentObserve p terminal'] }

/-- handle_terminal (source lines 529 to 558): increment episodes, append
the four ledger entries (the two timing entries only outside joint mode,
lines 538 to 540), evaluate the episode ceiling and the episode-frequency
callback gate (lines 543 to 547, with Python short-circuit: the callback
runs only when the ceiling was not reached), reset the episode
accumulators, and issue start_reset unless finished or sync_episodes
(lines 557 to 558). -/
def handle_terminal (s : RunnerState) (p : Nat) : RunnerState :=
  let episodes' := s.episodes + 1
  let clock' := s.clock + 1
  let ceil := ceilingReached s.num_episodes episodes'
  let gate := !ceil && freqGate s.callback_episode_frequency episodes'
  let cbResult := s.callbackResults.getD s.callbackCalls (PyVal.pybool true)
  let finished' := s.finished || ceil || (gate && !truthy cbResult)
  let doReset := !finished' && !s.sync_episodes
  { s with
    episodes := episodes',
    clock := clock',
    episode_rewards := s.episode_rewards ++ [s.episode_reward.getD p 0],
    episode_timesteps := s.episode_timesteps ++ [s.episode_timestep.getD p 0],
    episode_seconds :=
      if s.join_agent_calls then s.episode_seconds
      else s.episode_seconds ++ [clock' - s.episode_start.getD p 0],
    episode_agent_seconds :=
      if s.join_agent_calls then s.episode_agent_seconds
      else s.episode_agent_seconds ++ [s.episode_agent_second.getD p 0],
    callbackCalls := if gate then s.callbackCalls + 1 else s.callbackCalls,
    finished := finished',
    episode_reward := s.episode_reward.set p 0,
    episode_timestep := s.episode_timestep.set p 0,
    episode_agent_second :=
      if s.join_agent_calls then s.episode_agent_second
      else s.episode_agent_second.set p 0,
    episode_start :=
      if s.join_agent_calls then s.episode_start
      else s.episode_start.set p clock',
    trace := s.trace ++
      (if doReset then [Event.startReset p finished'] else []) }

/-- handle_act_evaluation (source lines 462 to 476): line 470 reads the
plain name `states` (and lines 466 and 473 the plain name `parallel`),
which is neither a local nor a global, so the handler raises NameError
before reaching the agent. -/
def handle_act_evaluation (s : RunnerState) : RunResult :=
  .error (.nameError, s)

/-- handle_observe_evaluation (source lines 517 to 527): line 521 reads the
plain name `reward`, which is neither a local nor a global, so the handler
raises NameError before mutating anything. -/
def handle_observe_evaluation (s : RunnerState) : RunResult :=
  .error (.nameError, s)

/-- handle_terminal_evaluation (source lines 560 to 591): the reward and
timestep ledger entries are appended (lines 564 to 565), then line 566
reads the local `evaluation_start` before its only assignment at line 587,
raising UnboundLocalError; the save-best logic of lines 570 to 579
(saveBestUpdate above) and everything after it is never reached. -/
def handle_terminal_evaluation (s : RunnerState) : RunResult :=
  .error (.unboundLocalError,
    { s with
      evaluation_rewards := s.evaluation_rewards ++ [s.evaluation_reward],
      evaluation_timesteps :=
        s.evaluation_timesteps ++ [s.evaluation_timestep] })

/-!
## The runner loop (source lines 315 to 422)
-/

/-- Dispatch on a ready observation (source lines 378 to 404): a None
terminal goes straight to act; otherwise observe first, then act if the
(possibly upgraded) terminal is CONTINUE 0, else the terminal handler. -/
def routeObservation (s : RunnerState) (p : Nat) (evaluation : Bool) :
    RunResult :=
  match s.terminals.getD p none with
  | none =>
    if evaluation then handle_act_evaluation s else handle_act s p
  | some _ =>
    match (if evaluation then handle_observe_evaluation s
           else .ok (handle_observe s p)) with
    | .error e => .error e
    | .ok s1 =>
      if s1.terminals.getD p none = some 0 then
        if evaluation then handle_act_evaluation s1 else handle_act s1 p
      else
        if evaluation then handle_terminal_evaluation s1
        else .ok (handle_terminal s1 p)

/-- Scan a poll script from the front for the first ready observation,
returning it and the number of entries consumed so far. -/
def findReadyAux : List (Option Obs) → Nat → Option (Obs × Nat)
  | [], _ => none
  | none :: rest, consumed => findReadyAux rest (consumed + 1)
  | some o :: _, consumed => some (o, consumed + 1)

/-- The busy-poll of sync_timesteps (source lines 361 to 364): keep polling
from position pos until an observation is ready; returns the observation
and the new position, or none when the script never again becomes ready
(the Python loop would then spin forever). -/
def findReady (script : List (Option Obs)) (pos : Nat) : Option (Obs × Nat) :=
  match findReadyAux (script.drop pos) pos with
  | none => none
  | some r => some r

/-- First ready observation anywhere in a script. -/
def firstReady (script : List (Option Obs)) : Option Obs :=
  match script with
  | [] => none
  | none :: rest => firstReady rest
  | some o :: _ => some o

/-- Store a ready observation into the per-session slots (source lines 373
to 376; the state component is never read by the orchestrator and is not
modelled). -/
def consumeObservation (s : RunnerState) (p : Nat) (obs : Obs) : RunnerState :=
  { s with
    terminals := s.terminals.set p obs.terminal,
    rewards := s.rewards.set p obs.reward }

/-- One session of the inner for loop (source lines 347 to 404).  Returns
the updated state together with the no_environment_ready accumulator of
the Unsynced policy.  Line 352 evaluates `self.prev_terminals[parallel] > 0`
only under sync_episodes; when that entry is Python None the comparison
raises TypeError. -/
def sessionPoll (s : RunnerState) (p : Nat) (noReady : Bool) :
    Except (PyErr × RunnerState) (RunnerState × Bool) :=
  if s.join_agent_calls then
    -- lines 356 to 357: the joint path would have filled the observation
    -- slots beforehand; unreachable, since run() aborts at line 312
    match routeObservation s p (p == s.trainScripts.length) with
    | .error e => .error e
    | .ok s' => .ok (s', noReady)
  else if s.sync_timesteps then
    match findReady (scriptFor s p) (s.pollPos.getD p 0) with
    | none => .error (.hang, s)
    | some (obs, pos') =>
      match routeObservation (consumeObservation
          { s with pollPos := s.pollPos.set p pos' } p obs) p
          (p == s.trainScripts.length) with
      | .error e => .error e
      | .ok s2 => .ok (s2, noReady)
  else
    match (scriptFor s p).getD (s.pollPos.getD p 0) none with
    | none => .ok ({ s with
        pollPos := s.pollPos.set p (s.pollPos.getD p 0 + 1) }, noReady)
    | some obs =>
      match routeObservation (consumeObservation
          { s with pollPos := s.pollPos.set p (s.pollPos.getD p 0 + 1) } p obs)
          p (p == s.trainScripts.length) with
      | .error e => .error e
      | .ok s2 => .ok (s2, false)

/-- One session of the inner for loop: the sync_episodes skip of line 352,
then the poll-and-dispatch. -/
def sessionStep (s : RunnerState) (p : Nat) (noReady : Bool) :
    Except (PyErr × RunnerState) (RunnerState × Bool) :=
  if s.sync_episodes then
    match s.prev_terminals.getD p (some 0) with
    | none => .error (.typeError, s)
    | some t => if 0 < t then .ok (s, noReady) else sessionPoll s p noReady
  else sessionPoll s p noReady

/-- The inner for loop over sessions i, i+1, ..., i+n-1 (source line 347),
threading the state and the no_environment_ready accumulator. -/
def sessionsFrom : Nat → Nat → RunnerState → Bool →
    Except (PyErr × RunnerState) (RunnerState × Bool)
  | _, 0, s, noReady => .ok (s, noReady)
  | i, n + 1, s, noReady =>
    match sessionStep s i noReady with
    | .error e => .error e
    | .ok (s', noReady') => sessionsFrom (i + 1) n s' noReady'

/-- Python `all(terminal > 0 for terminal in terminals)` (source line 412):
short-circuits at the first entry that is 0 or negative, and raises
TypeError when it reaches a None entry. -/
def allGreaterZero : List (Option Int) → Except PyErr Bool
  | [] => .ok true
  | none :: _ => .error .typeError
  | some t :: rest => if 0 < t then allGreaterZero rest else .ok false

/-- The sync_episodes barrier reset (source lines 413 to 416): reset
prev_terminals to zeros and issue start_reset on every session, including
the evaluation session; note there is no guard on finished here. -/
def barrierReset (s : RunnerState) : RunnerState :=
  { s with
    prev_terminals := List.replicate s.totalEnvs (some 0),
    trace := s.trace ++
      (List.range s.totalEnvs).map (fun i => Event.startReset i s.finished) }

/-- One iteration of the outer while loop (source lines 316 to 422).  In
joint mode the batch path (lines 318 to 338) reads the plain name
`parallel` at line 330 (and misuses zip at line 329), raising NameError;
it is in any case unreachable, because run() aborts at line 312.  The
sleep of lines 420 to 422 has no modelled effect. -/
def iteration (s : RunnerState) : RunResult :=
  if s.join_agent_calls then .error (.nameError, s)
  else
    let s0 := { s with terminals := s.prev_terminals }
    match sessionsFrom 0 s0.totalEnvs s0 true with
    | .error e => .error e
    | .ok (s1, _noReady) =>
      if s1.sync_episodes then
        match allGreaterZero s1.terminals with
        | .error err => .error (err, s1)
        | .ok true => .ok (barrierReset s1)
        | .ok false => .ok { s1 with prev_terminals := s1.terminals }
      else .ok { s1 with prev_terminals := s1.terminals }

/-- The outer while loop (source line 316), fuel-indexed: an ok result is
exactly a run that left the loop because finished was set. -/
def runLoop : Nat → RunnerState → RunResult
  | 0, s => if s.finished then .ok s else .error (.fuelExhausted, s)
  | fuel + 1, s =>
    if s.finished then .ok s
    else
      match iteration s with
      | .error e => .error e
      | .ok s' => runLoop fuel s'

/-!
## run() configuration and initialization (source lines 52 to 312)
-/

/-- Arguments of run() (source lines 132 to 143) that the embedding needs.
A none ceiling or frequency stands for the float inf default. -/
structure RunConfig where
  num_episodes : Option Nat
  num_timesteps : Option Nat
  num_updates : Option Nat
  join_agent_calls : Bool
  sync_timesteps : Bool
  sync_episodes : Bool
  callback_episode_frequency : Option Nat
  callback_timestep_frequency : Option Nat
  /-- whether an evaluation_callback argument was passed (needed only for
  the assertion at line 261) -/
  evaluation_callback_given : Bool
deriving Repr

/-- What __init__ leaves behind, plus the collaborator scripts. -/
structure RunnerInit where
  trainScripts : List (List (Option Obs))
  has_evaluation : Bool
  evalScript : List (Option Obs)
  agentObserveResults : List Bool
  callbackResults : List PyVal
  save_best_agent : Bool
deriving Repr

/-- Number of sessions the runner loop visits. -/
def RunnerInit.totalEnvs (init : RunnerInit) : Nat :=
  init.trainScripts.length + (if init.has_evaluation then 1 else 0)

/-- The state as built by __init__ together with the prologue of run()
(source lines 144 to 309), before the events of lines 282 to 298 are
recorded.  The episode-frequency default of lines 166 to 167 applies when
neither frequency is given; line 158 forces sync_timesteps on under
join_agent_calls. -/
def mkStateCore (init : RunnerInit) (cfg : RunConfig) : RunnerState :=
  let total := init.totalEnvs
  { num_episodes := cfg.num_episodes
    num_timesteps := cfg.num_timesteps
    num_updates := cfg.num_updates
    join_agent_calls := cfg.join_agent_calls
    sync_timesteps := cfg.sync_timesteps || cfg.join_agent_calls
    sync_episodes := cfg.sync_episodes
    callback_episode_frequency :=
      if cfg.callback_episode_frequency.isNone &&
         cfg.callback_timestep_frequency.isNone then some 1
      else cfg.callback_episode_frequency
    callback_timestep_frequency := cfg.callback_timestep_frequency
    save_best_agent := init.save_best_agent
    has_evaluation := init.has_evaluation
    trainScripts := init.trainScripts
    evalScript := init.evalScript
    agentObserveResults := init.agentObserveResults
    callbackResults := init.callbackResults
    timesteps := 0
    episodes := 0
    updates := 0
    finished := false
    episode_reward := List.replicate init.trainScripts.length 0
    episode_timestep := List.replicate init.trainScripts.length 0
    episode_agent_second := List.replicate init.trainScripts.length 0
    episode_start := List.replicate init.trainScripts.length 0
    episode_rewards := []
    episode_timesteps := []
    episode_seconds := []
    episode_agent_seconds := []
    evaluation_reward := 0
    evaluation_timestep := 0
    evaluation_agent_second := 0
    evaluation_rewards := []
    evaluation_timesteps := []
    evaluation_seconds := []
    evaluation_agent_seconds := []
    best_evaluation_score := none
    prev_terminals := List.replicate total (some 0)
    terminals := List.replicate total none
    rewards := List.replicate total none
    pollPos := List.replicate total 0
    observeCalls := 0
    callbackCalls := 0
    clock := 0
    trace := [] }

/-- mkStateCore with the prologue events recorded: agent.reset (line 282),
then start_reset on each training session (lines 285 to 286) and, when
configured, on the evaluation session (line 298); the finished flag is
false throughout the prologue. -/
def mkState (init : RunnerInit) (cfg : RunConfig) : RunnerState :=
  { mkStateCore init cfg with
    trace := Event.agentReset ::
      (List.range init.totalEnvs).map (fun i => Event.startReset i false) }

/-- run() (source lines 132 to 422): the assertion of line 165 (both
callback frequencies given), the assertions of lines 261 to 262
(evaluation options without an evaluation session), then the prologue, the
bare attribute access self.joint of line 312 (AttributeError: never
assigned), and finally the runner loop. -/
def runRunner (init : RunnerInit) (cfg : RunConfig) (fuel : Nat) : RunResult :=
  if cfg.callback_episode_frequency.isSome &&
     cfg.callback_timestep_frequency.isSome then
    .error (.assertionError, mkStateCore init cfg)
  else if !init.has_evaluation &&
      (cfg.evaluation_callback_given || init.save_best_agent) then
    .error (.assertionError, mkStateCore init cfg)
  else
    let s := mkState init cfg
    if s.join_agent_calls then .error (.attributeError, s)
    else runLoop fuel s

/-- The error of a run result, if any. -/
def errOf : RunResult → Option PyErr
  | .ok _ => none
  | .error (e, _) => some e

/-- The state a run result carries (final state, or the state at the raise
point). -/
def stateOf : RunResult → RunnerState
  | .ok s => s
  | .error (_, s) => s

/-- Whether a run result is a graceful completion. -/
def isOkRun : RunResult → Bool
  | .ok _ => true
  | .error _ => false

/-!
## List helper lemmas
-/

theorem getD_set_ne {α : Type} (l : List α) (i j : Nat) (a d : α)
    (h : i ≠ j) : (l.set i a).getD j d = l.getD j d := by
  rw [List.getD_eq_getD_get?, List.getD_eq_getD_get?, List.get?_set_ne _ _ h]

theorem getD_set_self {α : Type} (l : List α) (i : Nat) (a d : α)
    (h : i < l.length) : (l.set i a).getD i d = a := by
  rw [List.getD_eq_getD_get?, List.get?_set_eq_of_lt _ h]
  rfl

theorem lt_length_of_getD_ne {α : Type} (l : List α) (i : Nat) (d : α)
    (h : l.getD i d ≠ d) : i < l.length := by
  by_contra hge
  exact h (List.getD_eq_default l d (Nat.le_of_not_lt hge))

/-!
## Fields that no step of the runner loop modifies
-/

/-- The configuration and script fields, which the loop body never writes. -/
def ConfigConst (s s' : RunnerState) : Prop :=
  s'.num_episodes = s.num_episodes ∧
  s'.num_timesteps = s.num_timesteps ∧
  s'.num_updates = s.num_updates ∧
  s'.join_agent_calls = s.join_agent_calls ∧
  s'.sync_timesteps = s.sync_timesteps ∧
  s'.sync_episodes = s.sync_episodes ∧
  s'.callback_episode_frequency = s.callback_episode_frequency ∧
  s'.callback_timestep_frequency = s.callback_timestep_frequency ∧
  s'.save_best_agent = s.save_best_agent ∧
  s'.has_evaluation = s.has_evaluation ∧
  s'.trainScripts = s.trainScripts ∧
  s'.evalScript = s.evalScript ∧
  s'.agentObserveResults = s.agentObserveResults ∧
  s'.callbackResults = s.callbackResults

theorem ConfigConst.reflC (s : RunnerState) : ConfigConst s s := by
  simp [ConfigConst]

theorem ConfigConst.transC {a b c : RunnerState}
    (h1 : ConfigConst a b) (h2 : ConfigConst b c) : ConfigConst a c := by
  obtain ⟨e1, e2, e3, e4, e5, e6, e7, e8, e9, e10, e11, e12, e13, e14⟩ := h1
  obtain ⟨f1, f2, f3, f4, f5, f6, f7, f8, f9, f10, f11, f12, f13, f14⟩ := h2
  exact ⟨f1.trans e1, f2.trans e2, f3.trans e3, f4.trans e4, f5.trans e5,
    f6.trans e6, f7.trans e7, f8.trans e8, f9.trans e9, f10.trans e10,
    f11.trans e11, f12.trans e12, f13.trans e13, f14.trans e14⟩

theorem ConfigConst.totalEnvs {a b : RunnerState} (h : ConfigConst a b) :
    b.totalEnvs = a.totalEnvs := by
  obtain ⟨-, -, -, -, -, -, -, -, -, h10, h11, -, -, -⟩ := h
  simp [RunnerState.totalEnvs, h10, h11]

/-!
## Counter monotonicity and the finished latch
-/

/-- The three counters never decrease and finished never resets. -/
def CountersLE (s s' : RunnerState) : Prop :=
  s.timesteps ≤ s'.timesteps ∧ s.episodes ≤ s'.episodes ∧
  s.updates ≤ s'.updates ∧ (s.finished = true → s'.finished = true)

theorem CountersLE.reflL (s : RunnerState) : CountersLE s s := by
  simp [CountersLE]

theorem CountersLE.transL {a b c : RunnerState}
    (h1 : CountersLE a b) (h2 : CountersLE b c) : CountersLE a c := by
  obtain ⟨e1, e2, e3, e4⟩ := h1
  obtain ⟨f1, f2, f3, f4⟩ := h2
  exact ⟨e1.trans f1, e2.trans f2, e3.trans f3, fun h => f4 (e4 h)⟩

theorem handle_act_const_mono (s : RunnerState) (p : Nat) (s' : RunnerState)
    (h : handle_act s p = .ok s') : ConfigConst s s' ∧ CountersLE s s' := by
  unfold handle_act at h
  split at h
  · exact absurd h (by simp)
  · rw [Except.ok.injEq] at h
    subst h
    refine ⟨by simp [ConfigConst], by simp, by simp, by simp, ?_⟩
    intro hf
    simp [hf]

theorem handle_observe_const_mono (s : RunnerState) (p : Nat) :
    ConfigConst s (handle_observe s p) ∧ CountersLE s (handle_observe s p) := by
  refine ⟨by simp [ConfigConst, handle_observe], ?_⟩
  refine ⟨by simp [handle_observe], by simp [handle_observe], ?_, ?_⟩
  · simp only [handle_observe]
    split <;> simp
  · simp only [handle_observe]
    intro hf
    simp [hf]

theorem handle_terminal_const_mono (s : RunnerState) (p : Nat) :
    ConfigConst s (handle_terminal s p) ∧ CountersLE s (handle_terminal s p) := by
  refine ⟨by simp [ConfigConst, handle_terminal], ?_⟩
  refine ⟨by simp [handle_terminal], by simp [handle_terminal], by simp [handle_terminal], ?_⟩
  intro hf
  simp [handle_terminal, hf]

theorem routeObservation_const_mono (s : RunnerState) (p : Nat) (ev : Bool)
    (s' : RunnerState) (h : routeObservation s p ev = .ok s') :
    ConfigConst s s' ∧ CountersLE s s' := by
  unfold routeObservation at h
  cases ev with
  | true =>
    split at h
    · exact absurd h (by simp [handle_act_evaluation])
    · simp [handle_observe_evaluation] at h
  | false =>
    split at h
    · simp only [Bool.false_eq_true, if_false] at h
      exact handle_act_const_mono s p s' h
    · simp only [Bool.false_eq_true, if_false] at h
      have h1 := handle_observe_const_mono s p
      split at h
      · have h2 := handle_act_const_mono _ p s' h
        exact ⟨h1.1.transC h2.1, h1.2.transL h2.2⟩
      · rw [Except.ok.injEq] at h
        rw [← h]
        have h2 := handle_terminal_const_mono (handle_observe s p) p
        exact ⟨h1.1.transC h2.1, h1.2.transL h2.2⟩

theorem consumeObservation_const_mono (s : RunnerState) (p : Nat) (obs : Obs) :
    ConfigConst s (consumeObservation s p obs) ∧
    CountersLE s (consumeObservation s p obs) := by
  constructor
  · simp [ConfigConst, consumeObservation]
  · simp [CountersLE, consumeObservation]

theorem pollPosSet_const_mono (s : RunnerState) (l : List Nat) :
    ConfigConst s { s with pollPos := l } ∧
    CountersLE s { s with pollPos := l } := by
  constructor
  · simp [ConfigConst]
  · simp [CountersLE]


theorem sessionPoll_const_mono (s : RunnerState) (p : Nat) (nr : Bool)
    (s' : RunnerState) (nr' : Bool) (h : sessionPoll s p nr = .ok (s', nr')) :
    ConfigConst s s' ∧ CountersLE s s' := by
  unfold sessionPoll at h
  split at h
  · split at h
    · exact absurd h (by simp)
    · rename_i s1 hroute
      rw [Except.ok.injEq, Prod.mk.injEq] at h
      rw [← h.1]
      exact routeObservation_const_mono s p _ s1 hroute
  · split at h
    · split at h
      · exact absurd h (by simp)
      · split at h
        · exact absurd h (by simp)
        · rename_i s2 hroute
          rw [Except.ok.injEq, Prod.mk.injEq] at h
          rw [← h.1]
          have c3 := routeObservation_const_mono _ p _ s2 hroute
          exact ⟨ConfigConst.transC (ConfigConst.transC
              (pollPosSet_const_mono s _).1 (consumeObservation_const_mono _ _ _).1)
              c3.1,
            CountersLE.transL (CountersLE.transL
              (pollPosSet_const_mono s _).2 (consumeObservation_const_mono _ _ _).2)
              c3.2⟩
    · split at h
      · rw [Except.ok.injEq, Prod.mk.injEq] at h
        rw [← h.1]
        exact pollPosSet_const_mono s _
      · split at h
        · exact absurd h (by simp)
        · rename_i s2 hroute
          rw [Except.ok.injEq, Prod.mk.injEq] at h
          rw [← h.1]
          have c3 := routeObservation_const_mono _ p _ s2 hroute
          exact ⟨ConfigConst.transC (ConfigConst.transC
              (pollPosSet_const_mono s _).1 (consumeObservation_const_mono _ _ _).1)
              c3.1,
            CountersLE.transL (CountersLE.transL
              (pollPosSet_const_mono s _).2 (consumeObservation_const_mono _ _ _).2)
              c3.2⟩

theorem sessionStep_const_mono (s : RunnerState) (p : Nat) (nr : Bool)
    (s' : RunnerState) (nr' : Bool) (h : sessionStep s p nr = .ok (s', nr')) :
    ConfigConst s s' ∧ CountersLE s s' := by
  unfold sessionStep at h
  split at h
  · split at h
    · exact absurd h (by simp)
    · split at h
      · rw [Except.ok.injEq, Prod.mk.injEq] at h
        rw [← h.1]
        exact ⟨ConfigConst.reflC s, CountersLE.reflL s⟩
      · exact sessionPoll_const_mono s p nr s' nr' h
  · exact sessionPoll_const_mono s p nr s' nr' h

theorem barrierReset_const_mono (s : RunnerState) :
    ConfigConst s (barrierReset s) ∧ CountersLE s (barrierReset s) := by
  constructor
  · simp [ConfigConst, barrierReset]
  · simp [CountersLE, barrierReset]

theorem terminalsCopy_const_mono (s : RunnerState) (l : List (Option Int)) :
    ConfigConst s { s with terminals := l } ∧
    CountersLE s { s with terminals := l } := by
  constructor
  · simp [ConfigConst]
  · simp [CountersLE]

theorem prevCopy_const_mono (s : RunnerState) (l : List (Option Int)) :
    ConfigConst s { s with prev_terminals := l } ∧
    CountersLE s { s with prev_terminals := l } := by
  constructor
  · simp [ConfigConst]
  · simp [CountersLE]

theorem sessionsFrom_const_mono :
    ∀ (n i : Nat) (s : RunnerState) (nr : Bool) (s' : RunnerState) (nr' : Bool),
      sessionsFrom i n s nr = .ok (s', nr') → ConfigConst s s' ∧ CountersLE s s' := by
  intro n
  induction n with
  | zero =>
    intro i s nr s' nr' h
    simp only [sessionsFrom, Except.ok.injEq, Prod.mk.injEq] at h
    rw [← h.1]
    exact ⟨ConfigConst.reflC s, CountersLE.reflL s⟩
  | succ n ih =>
    intro i s nr s' nr' h
    simp only [sessionsFrom] at h
    split at h
    · exact absurd h (by simp)
    · rename_i s1 nr1 hstep
      have h1 := sessionStep_const_mono s i nr s1 nr1 hstep
      have h2 := ih (i + 1) s1 nr1 s' nr' h
      exact ⟨h1.1.transC h2.1, h1.2.transL h2.2⟩

theorem iteration_const_mono (s : RunnerState) (s' : RunnerState)
    (h : iteration s = .ok s') : ConfigConst s s' ∧ CountersLE s s' := by
  simp only [iteration] at h
  split at h
  · exact absurd h (by simp)
  · split at h
    · exact absurd h (by simp)
    · rename_i s1 nr1 hsf
      have h0 := terminalsCopy_const_mono s s.prev_terminals
      have h1 := sessionsFrom_const_mono _ 0 _ true s1 nr1 hsf
      have head : ConfigConst s s1 ∧ CountersLE s s1 :=
        ⟨h0.1.transC h1.1, h0.2.transL h1.2⟩
      split at h
      · split at h
        · exact absurd h (by simp)
        · rw [Except.ok.injEq] at h
          rw [← h]
          have h2 := barrierReset_const_mono s1
          exact ⟨head.1.transC h2.1, head.2.transL h2.2⟩
        · rw [Except.ok.injEq] at h
          rw [← h]
          have h2 := prevCopy_const_mono s1 s1.terminals
          exact ⟨head.1.transC h2.1, head.2.transL h2.2⟩
      · rw [Except.ok.injEq] at h
        rw [← h]
        have h2 := prevCopy_const_mono s1 s1.terminals
        exact ⟨head.1.transC h2.1, head.2.transL h2.2⟩

theorem runLoop_const_mono :
    ∀ (fuel : Nat) (s s' : RunnerState), runLoop fuel s = .ok s' →
      ConfigConst s s' ∧ CountersLE s s' := by
  intro fuel
  induction fuel with
  | zero =>
    intro s s' h
    simp only [runLoop] at h
    split at h
    · rw [Except.ok.injEq] at h
      rw [← h]
      exact ⟨ConfigConst.reflC s, CountersLE.reflL s⟩
    · exact absurd h (by simp)
  | succ fuel ih =>
    intro s s' h
    simp only [runLoop] at h
    split at h
    · rw [Except.ok.injEq] at h
      rw [← h]
      exact ⟨ConfigConst.reflC s, CountersLE.reflL s⟩
    · split at h
      · exact absurd h (by simp)
      · rename_i s1 hiter
        have h1 := iteration_const_mono s s1 hiter
        have h2 := ih s1 s' h
        exact ⟨h1.1.transC h2.1, h1.2.transL h2.2⟩

/-- An ok result of the outer while loop means finished was set. -/
theorem runLoop_finished :
    ∀ (fuel : Nat) (s s' : RunnerState), runLoop fuel s = .ok s' →
      s'.finished = true := by
  intro fuel
  induction fuel with
  | zero =>
    intro s s' h
    simp only [runLoop] at h
    split at h
    · rename_i hf
      rw [Except.ok.injEq] at h
      rw [← h]
      exact hf
    · exact absurd h (by simp)
  | succ fuel ih =>
    intro s s' h
    simp only [runLoop] at h
    split at h
    · rename_i hf
      rw [Except.ok.injEq] at h
      rw [← h]
      exact hf
    · split at h
      · exact absurd h (by simp)
      · exact ih _ s' h

/-- Generic invariant preservation through the session loop.  The step
hypothesis may use the session index bound p < s.totalEnvs. -/
theorem sessionsFrom_preserve (P : RunnerState → Prop)
    (hstep : ∀ s p nr s' nr', p < s.totalEnvs → P s →
      sessionStep s p nr = .ok (s', nr') → P s') :
    ∀ (n i : Nat) (s : RunnerState) (nr : Bool) (s' : RunnerState) (nr' : Bool),
      i + n ≤ s.totalEnvs → P s → sessionsFrom i n s nr = .ok (s', nr') →
      P s' := by
  intro n
  induction n with
  | zero =>
    intro i s nr s' nr' hb hP h
    simp only [sessionsFrom, Except.ok.injEq, Prod.mk.injEq] at h
    rw [← h.1]
    exact hP
  | succ n ih =>
    intro i s nr s' nr' hb hP h
    simp only [sessionsFrom] at h
    split at h
    · exact absurd h (by simp)
    · rename_i s1 nr1 hstep0
      have hi : i < s.totalEnvs := by omega
      have hPd := hstep s i nr s1 nr1 hi hP hstep0
      have htot : s1.totalEnvs = s.totalEnvs :=
        (sessionStep_const_mono s i nr s1 nr1 hstep0).1.totalEnvs
      exact ih (i + 1) s1 nr1 s' nr' (by omega) hPd h

/-- Generic invariant preservation through the outer while loop. -/
theorem runLoop_preserve (P : RunnerState → Prop)
    (hiter : ∀ s s', P s → iteration s = .ok s' → P s') :
    ∀ (fuel : Nat) (s s' : RunnerState), P s → runLoop fuel s = .ok s' →
      P s' := by
  intro fuel
  induction fuel with
  | zero =>
    intro s s' hP h
    simp only [runLoop] at h
    split at h
    · rw [Except.ok.injEq] at h
      rw [← h]
      exact hP
    · exact absurd h (by simp)
  | succ fuel ih =>
    intro s s' hP h
    simp only [runLoop] at h
    split at h
    · rw [Except.ok.injEq] at h
      rw [← h]
      exact hP
    · split at h
      · exact absurd h (by simp)
      · rename_i s1 hiter0
        exact ih s1 s' (hiter s s1 hP hiter0) h

/-!
## Claim C10: the environment plus num_parallel constructor path
-/

/-- C10: constructing a ParallelRunner from `environment` plus
`num_parallel` (environments=None, num_parallel at least 1) raises
TypeError, because line 93 calls the environments list instead of
appending, so no runner instance can be created through this path. -/
theorem c10_constructor_num_parallel_raises (num_parallel : Nat)
    (h : 1 ≤ num_parallel) :
    initEnvironmentsViaNumParallel num_parallel = .error .typeError := by
  cases num_parallel with
  | zero => omega
  | succ m =>
    rw [initEnvironmentsViaNumParallel, List.range_succ_eq_map]
    rfl

/-- Witness for c10_constructor_num_parallel_raises at num_parallel = 1. -/
theorem c10_constructor_num_parallel_raises_witness :
    initEnvironmentsViaNumParallel 1 = .error .typeError :=
  c10_constructor_num_parallel_raises 1 (by decide)

/-!
## Claim C8: close() and externally supplied collaborators
-/

/-- C8 (code bug evidence): the docstring (source lines 29 to 31) promises
that an externally supplied Agent object is not closed by runner.close(),
and the guard at line 122 agrees, but the unconditional self.agent.close()
at line 129 closes the agent regardless: with an external agent and
external environments the close sequence still contains agentClose (and
with an owned agent it closes it twice).  Externally supplied environments
are indeed never closed. -/
theorem c8_close_always_closes_agent :
    (∀ (a e : Bool) (n : Nat) (ev evx : Bool),
      Event.agentClose ∈ closeEvents a e n ev evx) ∧
    closeEvents true true 2 false false = [Event.agentClose] ∧
    closeEvents false false 1 false false =
      [Event.agentClose, Event.envClose 0, Event.agentClose] := by
  refine ⟨?_, by decide, by decide⟩
  intro a e n ev evx
  simp [closeEvents]

/-!
## Claim C2: best-score snapshot persistence
-/

/-- C2 counterexample: for evaluation scores 5, 3, 8 the save decisions of
the code are not save, no save, save (the claimed pattern): the first
episode only initializes the baseline and does not trigger agent.save. -/
theorem c2_counterexample :
    saveBestTrace [5, 3, 8] ≠ [true, false, true] := by
  decide

/-- C2 amended: on scores 5, 3, 8 a snapshot is persisted only after the
third episode; in general the save decision is positive exactly when a
best score is already stored and the new score strictly exceeds it (so
the first score never saves).  This describes the decision logic of lines
570 to 579; in actual execution handle_terminal_evaluation raises before
reaching it. -/
theorem c2_save_best_only_on_strict_improvement :
    saveBestTrace [5, 3, 8] = [false, false, true] ∧
    ∀ (best : Option Int) (sc : Int),
      (saveBestUpdate best sc).2 = true ↔ ∃ b, best = some b ∧ b < sc := by
  refine ⟨by decide, ?_⟩
  intro best sc
  cases best with
  | none => simp [saveBestUpdate]
  | some b =>
    by_cases hlt : b < sc
    · simp [saveBestUpdate, hlt]
    · simp [saveBestUpdate, hlt]

/-!
## Claim C4: sequential_callback semantics
-/

/-- A callback that appends 1 to the log and returns the non-boolean 5. -/
def cbLogNonBool : List Nat → List Nat × PyVal :=
  fun log => (log ++ [1], .pyint 5)

/-- A callback that appends 2 to the log and returns boolean False. -/
def cbLogFalse : List Nat → List Nat × PyVal :=
  fun log => (log ++ [2], .pybool false)

/-- C4 counterexample: with callbacks returning the non-boolean 5 and then
boolean False, the combined result is the truthy non-boolean 5 even though
a callback returned boolean False: a non-boolean return is not treated as
true; it freezes the accumulator (the isinstance test at line 183 checks
the accumulator, not the new value) and the later boolean False is
ignored, refuting combined-result-false exactly when some callback
returned boolean False. -/
theorem c4_counterexample :
    ¬((truthy (sequential_callback [cbLogNonBool, cbLogFalse] []).2 = false) ↔
      PyVal.pybool false ∈ callbackOutputs [cbLogNonBool, cbLogFalse] []) := by
  decide

theorem sequentialCallbackStep_fst {σ : Type} (acc : σ × PyVal)
    (fn : σ → σ × PyVal) :
    (sequentialCallbackStep acc fn).1 = (fn acc.1).1 := by
  simp only [sequentialCallbackStep]
  split <;> rfl

theorem seqFold_state {σ : Type} (fns : List (σ → σ × PyVal)) (st : σ)
    (r : PyVal) :
    (fns.foldl sequentialCallbackStep (st, r)).1 = invokeAll fns st := by
  induction fns generalizing st r with
  | nil => rfl
  | cons fn rest ih =>
    have hpair : sequentialCallbackStep (st, r) fn =
        ((fn st).1, (sequentialCallbackStep (st, r) fn).2) := by
      rw [← sequentialCallbackStep_fst (st, r) fn]
    rw [List.foldl_cons, hpair]
    simp only [invokeAll]
    exact ih (fn st).1 _

theorem seqFold_nonbool {σ : Type} (fns : List (σ → σ × PyVal)) (st : σ)
    (r : PyVal) (h : isBool r = false) :
    (fns.foldl sequentialCallbackStep (st, r)).2 = r := by
  induction fns generalizing st with
  | nil => rfl
  | cons fn rest ih =>
    simp only [List.foldl_cons, sequentialCallbackStep, h, Bool.false_eq_true,
      if_false]
    exact ih (fn st).1

theorem seqFold_false {σ : Type} (fns : List (σ → σ × PyVal)) (st : σ) :
    (fns.foldl sequentialCallbackStep (st, .pybool false)).2 = .pybool false := by
  induction fns generalizing st with
  | nil => rfl
  | cons fn rest ih =>
    have hstep : sequentialCallbackStep (st, PyVal.pybool false) fn =
        ((fn st).1, PyVal.pybool false) := by
      simp [sequentialCallbackStep, isBool, pyAnd, truthy]
    rw [List.foldl_cons, hstep]
    exact ih (fn st).1

theorem seqFold_true {σ : Type} (fns : List (σ → σ × PyVal)) (st : σ) :
    (fns.foldl sequentialCallbackStep (st, .pybool true)).2 =
      ((callbackOutputs fns st).find? (fun v => v != .pybool true)).getD
        (.pybool true) := by
  induction fns generalizing st with
  | nil => rfl
  | cons fn rest ih =>
    have hstep : sequentialCallbackStep (st, PyVal.pybool true) fn =
        ((fn st).1, (fn st).2) := by
      simp [sequentialCallbackStep, isBool, pyAnd, truthy]
    rw [List.foldl_cons, hstep]
    simp only [callbackOutputs]
    by_cases hx : (fn st).2 = PyVal.pybool true
    · rw [List.find?_cons_of_neg _ (by simp [hx]), ← ih (fn st).1]
      rw [hx]
    · rw [List.find?_cons_of_pos _ (by simp [hx]), Option.getD_some]
      cases hv : (fn st).2 with
      | pybool b =>
        cases b with
        | true => exact absurd hv hx
        | false => exact seqFold_false rest _
      | pyint n => exact seqFold_nonbool rest _ _ rfl
      | pynone => exact seqFold_nonbool rest _ _ rfl

/-- C4 amended: every registered callback is invoked on each gated
invocation, in order, with all side effects performed (no short-circuit of
invocation); but the results are folded with Python `and` only while the
accumulator is still a boolean, so the combined result is the first
returned value different from True (and True when there is none): boolean
False freezes the result at False as the claim says, while a non-boolean
return freezes the result at that value, is returned to the gate to be
interpreted by truthiness, and hides any later boolean False. -/
theorem c4_sequential_callback_semantics {σ : Type}
    (callback : List (σ → σ × PyVal)) (st : σ) :
    (sequential_callback callback st).1 = invokeAll callback st ∧
    (sequential_callback callback st).2 =
      ((callbackOutputs callback st).find? (fun v => v != .pybool true)).getD
        (.pybool true) :=
  ⟨seqFold_state callback st _, seqFold_true callback st⟩

/-!
## Concrete demonstration fixtures
-/

/-- One training session whose only ready observation is the post-reset
observation; no evaluation session. -/
def demoInit1 : RunnerInit :=
  { trainScripts := [[some { terminal := none, reward := none }]]
    has_evaluation := false
    evalScript := []
    agentObserveResults := []
    callbackResults := []
    save_best_agent := false }

/-- Unsynced run with a timestep ceiling of 1 and no callback frequency. -/
def demoCfgTs1 : RunConfig :=
  { num_episodes := none, num_timesteps := some 1, num_updates := none
    join_agent_calls := false, sync_timesteps := false, sync_episodes := false
    callback_episode_frequency := none, callback_timestep_frequency := none
    evaluation_callback_given := false }

/-- One training session: post-reset observation, then a CONTINUE step with
reward 1; the observe call reports an update. -/
def demoInitObs : RunnerInit :=
  { trainScripts := [[some { terminal := none, reward := none },
                      some { terminal := some 0, reward := some 1 }]]
    has_evaluation := false
    evalScript := []
    agentObserveResults := [true]
    callbackResults := []
    save_best_agent := false }

/-- Unsynced run with an updates ceiling of 1. -/
def demoCfgUpd1 : RunConfig :=
  { num_episodes := none, num_timesteps := none, num_updates := some 1
    join_agent_calls := false, sync_timesteps := false, sync_episodes := false
    callback_episode_frequency := none, callback_timestep_frequency := none
    evaluation_callback_given := false }

/-- Unsynced run with a timestep ceiling of 1 and timestep-frequency 1. -/
def demoCfgTsFreq1 : RunConfig :=
  { num_episodes := none, num_timesteps := some 1, num_updates := none
    join_agent_calls := false, sync_timesteps := false, sync_episodes := false
    callback_episode_frequency := none, callback_timestep_frequency := some 1
    evaluation_callback_given := false }

/-!
## Claim C3: counter monotonicity and stopping ceilings
-/

/-- C3 counterexample: one session, updates ceiling 1.  The observe call of
the second loop iteration reports an update, reaching the ceiling and
setting finished; but because the terminal code is CONTINUE the same
iteration immediately acts again, incrementing timesteps from 1 to 2 after
finished is already set (the trace records the startExecute issued with
finished true), refuting the no-increment-beyond-the-triggering-increment
part of the claim. -/
theorem c3_counterexample :
    isOkRun (runRunner demoInitObs demoCfgUpd1 5) = true ∧
    (stateOf (runRunner demoInitObs demoCfgUpd1 5)).updates = 1 ∧
    (stateOf (runRunner demoInitObs demoCfgUpd1 5)).timesteps = 2 ∧
    Event.startExecute 0 true ∈
      (stateOf (runRunner demoInitObs demoCfgUpd1 5)).trace := by
  refine ⟨rfl, rfl, rfl, ?_⟩
  decide

/-- C3 amended: timesteps, episodes and updates never decrease across an
ok loop iteration and finished, once set, stays set; each handler sets
finished as soon as its counter has reached the configured ceiling
immediately after the increment; and a gracefully completed run ends with
finished set (the loop exits at the next outer-iteration check).  Within
the rest of the iteration that set finished, however, handlers of other
(or even the same) session may still increment counters, as the
counterexample shows. -/
theorem c3_counters_monotone_ceilings_halt :
    (∀ s s' : RunnerState, iteration s = .ok s' →
      s.timesteps ≤ s'.timesteps ∧ s.episodes ≤ s'.episodes ∧
      s.updates ≤ s'.updates ∧ (s.finished = true → s'.finished = true)) ∧
    (∀ (s : RunnerState) (p : Nat) (s' : RunnerState), handle_act s p = .ok s' →
      ceilingReached s'.num_timesteps s'.timesteps = true →
      s'.finished = true) ∧
    (∀ (s : RunnerState) (p : Nat),
      ceilingReached (handle_observe s p).num_updates
        (handle_observe s p).updates = true →
      (handle_observe s p).finished = true) ∧
    (∀ (s : RunnerState) (p : Nat),
      ceilingReached (handle_terminal s p).num_episodes
        (handle_terminal s p).episodes = true →
      (handle_terminal s p).finished = true) ∧
    (∀ (init : RunnerInit) (cfg : RunConfig) (fuel : Nat) (s' : RunnerState),
      runRunner init cfg fuel = .ok s' → s'.finished = true) := by
  refine ⟨?_, ?_, ?_, ?_, ?_⟩
  · intro s s' h
    exact (iteration_const_mono s s' h).2
  · intro s p s' h hceil
    unfold handle_act at h
    split at h
    · exact absurd h (by simp)
    · rw [Except.ok.injEq] at h
      rw [← h] at hceil ⊢
      simp only at hceil ⊢
      rw [hceil]
      simp
  · intro s p hceil
    simp only [handle_observe] at hceil ⊢
    rw [hceil]
    simp
  · intro s p hceil
    simp only [handle_terminal] at hceil ⊢
    rw [hceil]
    simp
  · intro init cfg fuel s' h
    simp only [runRunner] at h
    split at h
    · exact absurd h (by simp)
    · split at h
      · exact absurd h (by simp)
      · split at h
        · exact absurd h (by simp)
        · exact runLoop_finished fuel _ s' h

/-- Intermediate state of the c3 demonstration: the mkState prologue
state of the one-session timestep-ceiling run. -/
def c3demoStart : RunnerState := mkState demoInit1 demoCfgTs1

/-- The state after one ok iteration of the c3 demonstration. -/
def c3demoIter : RunnerState := stateOf (iteration c3demoStart)

/-- A state whose updates ceiling is 0, so any observe reaches it. -/
def c3demoUpd : RunnerState := { c3demoStart with num_updates := some 0 }

/-- A state whose episodes ceiling is 1, so any terminal reaches it. -/
def c3demoEp : RunnerState := { c3demoStart with num_episodes := some 1 }

/-- Witness for c3_counters_monotone_ceilings_halt at concrete inputs. -/
theorem c3_counters_monotone_ceilings_halt_witness :
    (c3demoStart.timesteps ≤ c3demoIter.timesteps ∧
      c3demoStart.episodes ≤ c3demoIter.episodes ∧
      c3demoStart.updates ≤ c3demoIter.updates ∧
      (c3demoStart.finished = true → c3demoIter.finished = true)) ∧
    (stateOf (handle_act c3demoStart 0)).finished = true ∧
    (handle_observe c3demoUpd 0).finished = true ∧
    (handle_terminal c3demoEp 0).finished = true ∧
    (stateOf (runRunner demoInit1 demoCfgTs1 5)).finished = true := by
  refine ⟨c3_counters_monotone_ceilings_halt.1 c3demoStart c3demoIter rfl,
    c3_counters_monotone_ceilings_halt.2.1 c3demoStart 0
      (stateOf (handle_act c3demoStart 0)) rfl (by decide),
    c3_counters_monotone_ceilings_halt.2.2.1 c3demoUpd 0 (by decide),
    c3_counters_monotone_ceilings_halt.2.2.2.1 c3demoEp 0 (by decide),
    c3_counters_monotone_ceilings_halt.2.2.2.2 demoInit1 demoCfgTs1 5
      (stateOf (runRunner demoInit1 demoCfgTs1 5)) rfl⟩

/-!
## Claim C6: the timestep-frequency callback gate
-/

/-- C6 counterexample: with timestep-frequency K = 1 every timestep
increment satisfies counter mod K = 0, so the claim requires a callback
invocation after the first increment; but that increment also reaches the
timestep ceiling num_timesteps = 1, the disjunction of line 442
short-circuits, and the callback is never invoked (callbackCalls stays 0)
even though the run completes with timesteps = 1. -/
theorem c6_counterexample :
    isOkRun (runRunner demoInit1 demoCfgTsFreq1 5) = true ∧
    (stateOf (runRunner demoInit1 demoCfgTsFreq1 5)).timesteps = 1 ∧
    (stateOf (runRunner demoInit1 demoCfgTsFreq1 5)).callbackCalls = 0 := by
  exact ⟨rfl, rfl, rfl⟩

/-- C6 amended: with a timestep-frequency K configured, handle_act always
succeeds outside joint mode, increments timesteps by one, invokes the
callback exactly when the timestep ceiling was not reached by this
increment and the per-session episode-timestep counter (not the global
timesteps counter) is divisible by K, and sets finished exactly when it
was already set, the ceiling was reached, or the gate fired and the
callback returned a falsy value. -/
theorem c6_timestep_callback_gate (s : RunnerState) (p : Nat) (k : Nat)
    (hj : s.join_agent_calls = false)
    (hk : s.callback_timestep_frequency = some k) (_hk1 : 1 ≤ k) :
    isOkRun (handle_act s p) = true ∧
    (stateOf (handle_act s p)).timesteps = s.timesteps + 1 ∧
    (stateOf (handle_act s p)).callbackCalls =
      (if (!ceilingReached s.num_timesteps (s.timesteps + 1) &&
           ((s.episode_timestep.getD p 0 + 1) % k == 0)) = true
       then s.callbackCalls + 1 else s.callbackCalls) ∧
    (stateOf (handle_act s p)).finished =
      (s.finished || ceilingReached s.num_timesteps (s.timesteps + 1) ||
        (!ceilingReached s.num_timesteps (s.timesteps + 1) &&
          ((s.episode_timestep.getD p 0 + 1) % k == 0) &&
          !truthy (s.callbackResults.getD s.callbackCalls (.pybool true)))) := by
  simp only [handle_act, hj, Bool.false_eq_true, if_false, hk, freqGate,
    isOkRun, stateOf]
  exact ⟨trivial, trivial, trivial, trivial⟩

/-- Base state for the c6 witness: the prologue state of the
timestep-frequency demonstration run. -/
def c6demoState : RunnerState := mkState demoInit1 demoCfgTsFreq1

/-- Witness for c6_timestep_callback_gate at the concrete state. -/
theorem c6_timestep_callback_gate_witness :
    isOkRun (handle_act c6demoState 0) = true ∧
    (stateOf (handle_act c6demoState 0)).timesteps = c6demoState.timesteps + 1 ∧
    (stateOf (handle_act c6demoState 0)).callbackCalls =
      (if (!ceilingReached c6demoState.num_timesteps (c6demoState.timesteps + 1) &&
           ((c6demoState.episode_timestep.getD 0 0 + 1) % 1 == 0)) = true
       then c6demoState.callbackCalls + 1 else c6demoState.callbackCalls) ∧
    (stateOf (handle_act c6demoState 0)).finished =
      (c6demoState.finished ||
        ceilingReached c6demoState.num_timesteps (c6demoState.timesteps + 1) ||
        (!ceilingReached c6demoState.num_timesteps (c6demoState.timesteps + 1) &&
          ((c6demoState.episode_timestep.getD 0 0 + 1) % 1 == 0) &&
          !truthy (c6demoState.callbackResults.getD c6demoState.callbackCalls
            (.pybool true)))) :=
  c6_timestep_callback_gate c6demoState 0 1 rfl rfl (by decide)

/-!
## Claim C7: FORCED_END upgrade and reward accounting
-/

/-- C7: when a non-evaluation observation with terminal CONTINUE 0 is
handled while finished is already set, the dispatcher observes with the
terminal upgraded to FORCED_END 2 (the recorded agent.observe call carries
terminal 2), the attached reward is added to the episode accumulator, and
the path continues into handle_terminal, which appends exactly the
accumulated reward including this last one to the episode_rewards ledger. -/
theorem c7_forced_end_upgrade (s : RunnerState) (p : Nat) (r : Int)
    (hj : s.join_agent_calls = false)
    (hfin : s.finished = true)
    (hterm : s.terminals.getD p none = some 0)
    (hrew : s.rewards.getD p none = some r)
    (hp : p < s.episode_reward.length) :
    isOkRun (routeObservation s p false) = true ∧
    Event.agentObserve p (some 2) ∈
      (stateOf (routeObservation s p false)).trace ∧
    (stateOf (routeObservation s p false)).episode_rewards =
      s.episode_rewards ++ [s.episode_reward.getD p 0 + r] := by
  have pterm : p < s.terminals.length := by
    refine lt_length_of_getD_ne s.terminals p none ?_
    rw [hterm]
    simp
  have hobs_term : (handle_observe s p).terminals.getD p none = some 2 := by
    simp only [handle_observe]
    rw [getD_set_self _ p _ none pterm, if_pos (And.intro hterm hfin)]
  have hobs_trace : (handle_observe s p).trace =
      s.trace ++ [Event.agentObserve p (some 2)] := by
    simp only [handle_observe, hj, Bool.false_eq_true, if_false]
    rw [if_pos (And.intro hterm hfin)]
  have hobs_rewards : (handle_observe s p).episode_rewards =
      s.episode_rewards := by
    simp [handle_observe]
  have hobs_acc : (handle_observe s p).episode_reward.getD p 0 =
      s.episode_reward.getD p 0 + r := by
    simp only [handle_observe]
    rw [getD_set_self _ p _ 0 hp, hrew]
    rfl
  unfold routeObservation
  rw [hterm]
  simp only [Bool.false_eq_true, if_false]
  rw [if_neg (by rw [hobs_term]; simp)]
  refine ⟨rfl, ?_, ?_⟩
  · simp only [stateOf, handle_terminal, hobs_trace]
    simp
  · simp only [stateOf, handle_terminal, hobs_rewards, hobs_acc]

/-- A mid-run state for the c7 witness: one session, finished already set,
a CONTINUE observation with reward 5 pending. -/
def c7demoState : RunnerState :=
  { mkState demoInit1 demoCfgTs1 with
    finished := true,
    terminals := [some 0],
    rewards := [some 5] }

/-- Witness for c7_forced_end_upgrade at the concrete state. -/
theorem c7_forced_end_upgrade_witness :
    isOkRun (routeObservation c7demoState 0 false) = true ∧
    Event.agentObserve 0 (some 2) ∈
      (stateOf (routeObservation c7demoState 0 false)).trace ∧
    (stateOf (routeObservation c7demoState 0 false)).episode_rewards =
      c7demoState.episode_rewards ++ [c7demoState.episode_reward.getD 0 0 + 5] :=
  c7_forced_end_upgrade c7demoState 0 5 rfl rfl rfl rfl (by decide)

/-!
## Claim C9: joint mode aborts before the loop
-/

/-- Every training session (and the evaluation session when configured)
received a prologue start_reset with finished false. -/
def hasAllSessionResets (total : Nat) (tr : List Event) : Bool :=
  (List.range total).all fun i => decide (Event.startReset i false ∈ tr)

/-- No agent act, no agent observe, and no action submission occurs in the
trace. -/
def noAgentInteraction (tr : List Event) : Bool :=
  tr.all fun e =>
    match e with
    | .agentAct _ _ => false
    | .agentObserve _ _ => false
    | .startExecute _ _ => false
    | _ => true

/-- C9: a run() invocation with join_agent_calls (passing the line 165 and
line 261 assertions) raises AttributeError at the bare self.joint of line
312: the prologue has already reset every session, but the loop is never
entered, so no act, observe or startExecute is ever issued. -/
theorem c9_joint_mode_attribute_error (init : RunnerInit) (cfg : RunConfig)
    (fuel : Nat)
    (hjoin : cfg.join_agent_calls = true)
    (hfreq : (cfg.callback_episode_frequency.isSome &&
      cfg.callback_timestep_frequency.isSome) = false)
    (heval : (!init.has_evaluation &&
      (cfg.evaluation_callback_given || init.save_best_agent)) = false) :
    errOf (runRunner init cfg fuel) = some .attributeError ∧
    hasAllSessionResets init.totalEnvs
      (stateOf (runRunner init cfg fuel)).trace = true ∧
    noAgentInteraction (stateOf (runRunner init cfg fuel)).trace = true := by
  have hrun : runRunner init cfg fuel =
      .error (.attributeError, mkState init cfg) := by
    simp only [runRunner, hfreq, Bool.false_eq_true, if_false, heval]
    rw [if_pos]
    simp [mkState, mkStateCore, hjoin]
  rw [hrun]
  refine ⟨rfl, ?_, ?_⟩
  · simp only [hasAllSessionResets, stateOf, mkState, List.all_eq_true,
      List.mem_range, decide_eq_true_eq]
    intro i hi
    exact List.mem_cons_of_mem _ (List.mem_map_of_mem _ (List.mem_range.mpr hi))
  · simp only [noAgentInteraction, stateOf, mkState, List.all_cons,
      Bool.true_and, List.all_eq_true, List.mem_map, List.mem_range]
    rintro e ⟨i, -, rfl⟩
    rfl

/-- A joint-mode run configuration. -/
def demoCfgJoint : RunConfig :=
  { num_episodes := some 1, num_timesteps := none, num_updates := none
    join_agent_calls := true, sync_timesteps := false, sync_episodes := false
    callback_episode_frequency := none, callback_timestep_frequency := none
    evaluation_callback_given := false }

/-- Witness for c9_joint_mode_attribute_error at a concrete run. -/
theorem c9_joint_mode_attribute_error_witness :
    errOf (runRunner demoInit1 demoCfgJoint 5) = some .attributeError ∧
    hasAllSessionResets demoInit1.totalEnvs
      (stateOf (runRunner demoInit1 demoCfgJoint 5)).trace = true ∧
    noAgentInteraction
      (stateOf (runRunner demoInit1 demoCfgJoint 5)).trace = true :=
  c9_joint_mode_attribute_error demoInit1 demoCfgJoint 5 rfl rfl rfl

/-!
## Claim C1: ledger lengths equal the episode counters
-/

/-- The StatisticsLedger invariant: outside joint mode (the only mode that
reaches the loop) the four training sequences all have length episodes,
and the four evaluation sequences are empty, because every evaluation
handler raises on first contact, so no evaluation episode ever completes
in a run that is still alive. -/
def LedgerInv (s : RunnerState) : Prop :=
  s.join_agent_calls = false ∧
  s.episode_rewards.length = s.episodes ∧
  s.episode_timesteps.length = s.episodes ∧
  s.episode_seconds.length = s.episodes ∧
  s.episode_agent_seconds.length = s.episodes ∧
  s.evaluation_rewards = [] ∧ s.evaluation_timesteps = [] ∧
  s.evaluation_seconds = [] ∧ s.evaluation_agent_seconds = []

theorem handle_act_ledger (s : RunnerState) (p : Nat) (s' : RunnerState)
    (h : handle_act s p = .ok s') (hI : LedgerInv s) : LedgerInv s' := by
  unfold handle_act at h
  split at h
  · exact absurd h (by simp)
  · rw [Except.ok.injEq] at h
    rw [← h]
    simpa [LedgerInv] using hI

theorem handle_observe_ledger (s : RunnerState) (p : Nat)
    (hI : LedgerInv s) : LedgerInv (handle_observe s p) := by
  simpa [LedgerInv, handle_observe] using hI

theorem handle_terminal_ledger (s : RunnerState) (p : Nat)
    (hI : LedgerInv s) : LedgerInv (handle_terminal s p) := by
  obtain ⟨hj, h1, h2, h3, h4, e1, e2, e3, e4⟩ := hI
  simp only [LedgerInv, handle_terminal, hj, Bool.false_eq_true, if_false]
  simp [h1, h2, h3, h4, e1, e2, e3, e4]

theorem routeObservation_ledger (s : RunnerState) (p : Nat) (ev : Bool)
    (s' : RunnerState) (h : routeObservation s p ev = .ok s')
    (hI : LedgerInv s) : LedgerInv s' := by
  unfold routeObservation at h
  cases ev with
  | true =>
    split at h
    · exact absurd h (by simp [handle_act_evaluation])
    · simp [handle_observe_evaluation] at h
  | false =>
    split at h
    · simp only [Bool.false_eq_true, if_false] at h
      exact handle_act_ledger s p s' h hI
    · simp only [Bool.false_eq_true, if_false] at h
      have hI1 := handle_observe_ledger s p hI
      split at h
      · exact handle_act_ledger _ p s' h hI1
      · rw [Except.ok.injEq] at h
        rw [← h]
        exact handle_terminal_ledger _ p hI1

theorem sessionPoll_ledger (s : RunnerState) (p : Nat) (nr : Bool)
    (s' : RunnerState) (nr' : Bool) (h : sessionPoll s p nr = .ok (s', nr'))
    (hI : LedgerInv s) : LedgerInv s' := by
  unfold sessionPoll at h
  split at h
  · split at h
    · exact absurd h (by simp)
    · rename_i s1 hroute
      rw [Except.ok.injEq, Prod.mk.injEq] at h
      rw [← h.1]
      exact routeObservation_ledger s p _ s1 hroute hI
  · split at h
    · split at h
      · exact absurd h (by simp)
      · split at h
        · exact absurd h (by simp)
        · rename_i s2 hroute
          rw [Except.ok.injEq, Prod.mk.injEq] at h
          rw [← h.1]
          refine routeObservation_ledger _ p _ s2 hroute ?_
          simpa [LedgerInv, consumeObservation] using hI
    · split at h
      · rw [Except.ok.injEq, Prod.mk.injEq] at h
        rw [← h.1]
        simpa [LedgerInv] using hI
      · split at h
        · exact absurd h (by simp)
        · rename_i s2 hroute
          rw [Except.ok.injEq, Prod.mk.injEq] at h
          rw [← h.1]
          refine routeObservation_ledger _ p _ s2 hroute ?_
          simpa [LedgerInv, consumeObservation] using hI

theorem sessionStep_ledger (s : RunnerState) (p : Nat) (nr : Bool)
    (s' : RunnerState) (nr' : Bool) (h : sessionStep s p nr = .ok (s', nr'))
    (hI : LedgerInv s) : LedgerInv s' := by
  unfold sessionStep at h
  split at h
  · split at h
    · exact absurd h (by simp)
    · split at h
      · rw [Except.ok.injEq, Prod.mk.injEq] at h
        rw [← h.1]
        exact hI
      · exact sessionPoll_ledger s p nr s' nr' h hI
  · exact sessionPoll_ledger s p nr s' nr' h hI

theorem iteration_ledger (s : RunnerState) (s' : RunnerState)
    (hI : LedgerInv s) (h : iteration s = .ok s') : LedgerInv s' := by
  simp only [iteration] at h
  split at h
  · exact absurd h (by simp)
  · split at h
    · exact absurd h (by simp)
    · rename_i s1 nr1 hsf
      have hI0 : LedgerInv { s with terminals := s.prev_terminals } := by
        simpa [LedgerInv] using hI
      have hI1 : LedgerInv s1 := sessionsFrom_preserve LedgerInv
        (fun a q anr a' anr' _ hP hstep =>
          sessionStep_ledger a q anr a' anr' hstep hP)
        _ 0 _ true s1 nr1 (by omega) hI0 hsf
      split at h
      · split at h
        · exact absurd h (by simp)
        · rw [Except.ok.injEq] at h
          rw [← h]
          simpa [LedgerInv, barrierReset] using hI1
        · rw [Except.ok.injEq] at h
          rw [← h]
          simpa [LedgerInv] using hI1
      · rw [Except.ok.injEq] at h
        rw [← h]
        simpa [LedgerInv] using hI1

/-- C1: in every gracefully completed run the four training statistics
sequences all have length equal to the episodes counter.  The four
evaluation sequences also all have equal length, namely 0, which is
exactly the number of completed evaluation episodes: the evaluation
handlers (handle_act_evaluation, handle_observe_evaluation,
handle_terminal_evaluation) all raise on undefined names, so a run in
which the evaluation session ever became ready did not complete, and no
evaluation episode ever completes. -/
theorem c1_ledger_lengths (init : RunnerInit) (cfg : RunConfig) (fuel : Nat)
    (s' : RunnerState) (h : runRunner init cfg fuel = .ok s') :
    s'.episode_rewards.length = s'.episodes ∧
    s'.episode_timesteps.length = s'.episodes ∧
    s'.episode_seconds.length = s'.episodes ∧
    s'.episode_agent_seconds.length = s'.episodes ∧
    s'.evaluation_rewards.length = 0 ∧
    s'.evaluation_timesteps.length = 0 ∧
    s'.evaluation_seconds.length = 0 ∧
    s'.evaluation_agent_seconds.length = 0 := by
  simp only [runRunner] at h
  split at h
  · exact absurd h (by simp)
  · split at h
    · exact absurd h (by simp)
    · split at h
      · exact absurd h (by simp)
      · rename_i hjoin
        have hj : (mkState init cfg).join_agent_calls = false := by
          revert hjoin
          cases (mkState init cfg).join_agent_calls <;> simp
        have hI0 : LedgerInv (mkState init cfg) := by
          refine ⟨hj, ?_, ?_, ?_, ?_, ?_, ?_, ?_, ?_⟩ <;>
            simp [mkState, mkStateCore]
        have hI := runLoop_preserve LedgerInv
          (fun a a' hP hstep => iteration_ledger a a' hP hstep)
          fuel _ s' hI0 h
        obtain ⟨-, h1, h2, h3, h4, e1, e2, e3, e4⟩ := hI
        exact ⟨h1, h2, h3, h4, by simp [e1], by simp [e2], by simp [e3],
          by simp [e4]⟩

/-- Witness for c1_ledger_lengths: the one-session timestep-ceiling run
completes with empty ledgers and episodes 0. -/
theorem c1_ledger_lengths_witness :
    (stateOf (runRunner demoInit1 demoCfgTs1 5)).episode_rewards.length =
      (stateOf (runRunner demoInit1 demoCfgTs1 5)).episodes ∧
    (stateOf (runRunner demoInit1 demoCfgTs1 5)).episode_timesteps.length =
      (stateOf (runRunner demoInit1 demoCfgTs1 5)).episodes ∧
    (stateOf (runRunner demoInit1 demoCfgTs1 5)).episode_seconds.length =
      (stateOf (runRunner demoInit1 demoCfgTs1 5)).episodes ∧
    (stateOf (runRunner demoInit1 demoCfgTs1 5)).episode_agent_seconds.length =
      (stateOf (runRunner demoInit1 demoCfgTs1 5)).episodes ∧
    (stateOf (runRunner demoInit1 demoCfgTs1 5)).evaluation_rewards.length = 0 ∧
    (stateOf (runRunner demoInit1 demoCfgTs1 5)).evaluation_timesteps.length = 0 ∧
    (stateOf (runRunner demoInit1 demoCfgTs1 5)).evaluation_seconds.length = 0 ∧
    (stateOf (runRunner demoInit1 demoCfgTs1 5)).evaluation_agent_seconds.length
      = 0 :=
  c1_ledger_lengths demoInit1 demoCfgTs1 5
    (stateOf (runRunner demoInit1 demoCfgTs1 5)) rfl

/-!
## Claim C5: no session reset once finished
-/

/-- An event is acceptable for C5 unless it is a start_reset issued while
finished was already true. -/
def resetEventOk : Event → Bool
  | .startReset _ b => !b
  | _ => true

/-- No start_reset in the trace was issued while finished was set. -/
def noResetAfterFinished (tr : List Event) : Bool := tr.all resetEventOk

/-- Session contract fragment used by C5: the first ready observation of a
script (the answer to the prologue reset) carries terminal None. -/
def firstReadyTerminalNone (script : List (Option Obs)) : Bool :=
  match firstReady script with
  | none => true
  | some o => o.terminal == none

/-- The consumed prefix of the head session script is all not-ready. -/
def Slot0AllUnready (s : RunnerState) : Prop :=
  ∀ j < s.pollPos.getD 0 0, (scriptFor s 0).getD j none = none

theorem noReset_append (tr es : List Event)
    (h : noResetAfterFinished tr = true) (hes : es.all resetEventOk = true) :
    noResetAfterFinished (tr ++ es) = true := by
  simp only [noResetAfterFinished] at h ⊢
  rw [List.all_append, h, hes]
  rfl

theorem handle_act_noReset (s : RunnerState) (p : Nat) (s' : RunnerState)
    (h : handle_act s p = .ok s')
    (hn : noResetAfterFinished s.trace = true) :
    noResetAfterFinished s'.trace = true := by
  unfold handle_act at h
  split at h
  · exact absurd h (by simp)
  · rw [Except.ok.injEq] at h
    rw [← h]
    exact noReset_append _ _ hn (by simp [resetEventOk])

theorem handle_observe_noReset (s : RunnerState) (p : Nat)
    (hn : noResetAfterFinished s.trace = true) :
    noResetAfterFinished (handle_observe s p).trace = true := by
  simp only [handle_observe]
  split
  · exact hn
  · exact noReset_append _ _ hn (by simp [resetEventOk])

theorem handle_terminal_noReset (s : RunnerState) (p : Nat)
    (hn : noResetAfterFinished s.trace = true) :
    noResetAfterFinished (handle_terminal s p).trace = true := by
  simp only [handle_terminal]
  refine noReset_append _ _ hn ?_
  split
  · rename_i hcond
    rw [Bool.and_eq_true] at hcond
    simp only [List.all_cons, List.all_nil, Bool.and_true, resetEventOk]
    exact hcond.1
  · simp

theorem routeObservation_noReset (s : RunnerState) (p : Nat) (ev : Bool)
    (s' : RunnerState) (h : routeObservation s p ev = .ok s')
    (hn : noResetAfterFinished s.trace = true) :
    noResetAfterFinished s'.trace = true := by
  unfold routeObservation at h
  cases ev with
  | true =>
    split at h
    · exact absurd h (by simp [handle_act_evaluation])
    · simp [handle_observe_evaluation] at h
  | false =>
    split at h
    · simp only [Bool.false_eq_true, if_false] at h
      exact handle_act_noReset s p s' h hn
    · simp only [Bool.false_eq_true, if_false] at h
      have hn1 := handle_observe_noReset s p hn
      split at h
      · exact handle_act_noReset _ p s' h hn1
      · rw [Except.ok.injEq] at h
        rw [← h]
        exact handle_terminal_noReset _ p hn1

theorem sessionPoll_noReset (s : RunnerState) (p : Nat) (nr : Bool)
    (s' : RunnerState) (nr' : Bool) (h : sessionPoll s p nr = .ok (s', nr'))
    (hn : noResetAfterFinished s.trace = true) :
    noResetAfterFinished s'.trace = true := by
  unfold sessionPoll at h
  split at h
  · split at h
    · exact absurd h (by simp)
    · rename_i s1 hroute
      rw [Except.ok.injEq, Prod.mk.injEq] at h
      rw [← h.1]
      exact routeObservation_noReset s p _ s1 hroute hn
  · split at h
    · split at h
      · exact absurd h (by simp)
      · split at h
        · exact absurd h (by simp)
        · rename_i s2 hroute
          rw [Except.ok.injEq, Prod.mk.injEq] at h
          rw [← h.1]
          exact routeObservation_noReset _ p _ s2 hroute hn
    · split at h
      · rw [Except.ok.injEq, Prod.mk.injEq] at h
        rw [← h.1]
        exact hn
      · split at h
        · exact absurd h (by simp)
        · rename_i s2 hroute
          rw [Except.ok.injEq, Prod.mk.injEq] at h
          rw [← h.1]
          exact routeObservation_noReset _ p _ s2 hroute hn

theorem sessionStep_noReset (s : RunnerState) (p : Nat) (nr : Bool)
    (s' : RunnerState) (nr' : Bool) (h : sessionStep s p nr = .ok (s', nr'))
    (hn : noResetAfterFinished s.trace = true) :
    noResetAfterFinished s'.trace = true := by
  unfold sessionStep at h
  split at h
  · split at h
    · exact absurd h (by simp)
    · split at h
      · rw [Except.ok.injEq, Prod.mk.injEq] at h
        rw [← h.1]
        exact hn
      · exact sessionPoll_noReset s p nr s' nr' h hn
  · exact sessionPoll_noReset s p nr s' nr' h hn

/-- What a per-session step at index p leaves untouched: the previous
terminals, the length of terminals, and the terminal and poll-position
slots of every other session. -/
def SlotsFacts (p : Nat) (s s' : RunnerState) : Prop :=
  s'.prev_terminals = s.prev_terminals ∧
  s'.terminals.length = s.terminals.length ∧
  (∀ q, q ≠ p → s'.terminals.getD q none = s.terminals.getD q none) ∧
  (∀ q, q ≠ p → s'.pollPos.getD q 0 = s.pollPos.getD q 0)

theorem SlotsFacts.reflS (p : Nat) (s : RunnerState) : SlotsFacts p s s :=
  ⟨rfl, rfl, fun _ _ => rfl, fun _ _ => rfl⟩

theorem SlotsFacts.transS {p : Nat} {a b c : RunnerState}
    (h1 : SlotsFacts p a b) (h2 : SlotsFacts p b c) : SlotsFacts p a c :=
  ⟨h2.1.trans h1.1, h2.2.1.trans h1.2.1,
    fun q hq => (h2.2.2.1 q hq).trans (h1.2.2.1 q hq),
    fun q hq => (h2.2.2.2 q hq).trans (h1.2.2.2 q hq)⟩

theorem handle_act_slots (s : RunnerState) (p : Nat) (s' : RunnerState)
    (h : handle_act s p = .ok s') : SlotsFacts p s s' := by
  unfold handle_act at h
  split at h
  · exact absurd h (by simp)
  · rw [Except.ok.injEq] at h
    rw [← h]
    exact ⟨rfl, rfl, fun _ _ => rfl, fun _ _ => rfl⟩

theorem handle_observe_slots (s : RunnerState) (p : Nat) :
    SlotsFacts p s (handle_observe s p) := by
  refine ⟨rfl, ?_, ?_, fun _ _ => rfl⟩
  · simp [handle_observe]
  · intro q hq
    simp only [handle_observe]
    exact getD_set_ne _ p q _ none (fun hpq => hq hpq.symm)

theorem handle_terminal_slots (s : RunnerState) (p : Nat) :
    SlotsFacts p s (handle_terminal s p) :=
  ⟨rfl, rfl, fun _ _ => rfl, fun _ _ => rfl⟩

theorem consumeObservation_slots (s : RunnerState) (p : Nat) (obs : Obs) :
    SlotsFacts p s (consumeObservation s p obs) := by
  refine ⟨rfl, ?_, ?_, fun _ _ => rfl⟩
  · simp [consumeObservation]
  · intro q hq
    simp only [consumeObservation]
    exact getD_set_ne _ p q _ none (fun hpq => hq hpq.symm)

theorem pollPosSet_slots (s : RunnerState) (p : Nat) (v : Nat) :
    SlotsFacts p s { s with pollPos := s.pollPos.set p v } := by
  refine ⟨rfl, rfl, fun _ _ => rfl, ?_⟩
  intro q hq
  exact getD_set_ne _ p q _ 0 (fun hpq => hq hpq.symm)

theorem routeObservation_slots (s : RunnerState) (p : Nat) (ev : Bool)
    (s' : RunnerState) (h : routeObservation s p ev = .ok s') :
    SlotsFacts p s s' := by
  unfold routeObservation at h
  cases ev with
  | true =>
    split at h
    · exact absurd h (by simp [handle_act_evaluation])
    · simp [handle_observe_evaluation] at h
  | false =>
    split at h
    · simp only [Bool.false_eq_true, if_false] at h
      exact handle_act_slots s p s' h
    · simp only [Bool.false_eq_true, if_false] at h
      have h1 := handle_observe_slots s p
      split at h
      · exact h1.transS (handle_act_slots _ p s' h)
      · rw [Except.ok.injEq] at h
        rw [← h]
        exact h1.transS (handle_terminal_slots _ p)

theorem sessionPoll_slots (s : RunnerState) (p : Nat) (nr : Bool)
    (s' : RunnerState) (nr' : Bool) (h : sessionPoll s p nr = .ok (s', nr')) :
    SlotsFacts p s s' := by
  unfold sessionPoll at h
  split at h
  · split at h
    · exact absurd h (by simp)
    · rename_i s1 hroute
      rw [Except.ok.injEq, Prod.mk.injEq] at h
      rw [← h.1]
      exact routeObservation_slots s p _ s1 hroute
  · split at h
    · split at h
      · exact absurd h (by simp)
      · split at h
        · exact absurd h (by simp)
        · rename_i s2 hroute
          rw [Except.ok.injEq, Prod.mk.injEq] at h
          rw [← h.1]
          exact ((pollPosSet_slots s p _).transS
            (consumeObservation_slots _ p _)).transS
            (routeObservation_slots _ p _ s2 hroute)
    · split at h
      · rw [Except.ok.injEq, Prod.mk.injEq] at h
        rw [← h.1]
        exact pollPosSet_slots s p _
      · split at h
        · exact absurd h (by simp)
        · rename_i s2 hroute
          rw [Except.ok.injEq, Prod.mk.injEq] at h
          rw [← h.1]
          exact ((pollPosSet_slots s p _).transS
            (consumeObservation_slots _ p _)).transS
            (routeObservation_slots _ p _ s2 hroute)

theorem sessionStep_slots (s : RunnerState) (p : Nat) (nr : Bool)
    (s' : RunnerState) (nr' : Bool) (h : sessionStep s p nr = .ok (s', nr')) :
    SlotsFacts p s s' := by
  unfold sessionStep at h
  split at h
  · split at h
    · exact absurd h (by simp)
    · split at h
      · rw [Except.ok.injEq, Prod.mk.injEq] at h
        rw [← h.1]
        exact SlotsFacts.reflS p s
      · exact sessionPoll_slots s p nr s' nr' h
  · exact sessionPoll_slots s p nr s' nr' h

/-!
### First-ready observation lemmas
-/

theorem findReadyAux_firstReady (l : List (Option Obs)) (c : Nat)
    (obs : Obs) (c' : Nat) (h : findReadyAux l c = some (obs, c')) :
    firstReady l = some obs := by
  induction l generalizing c with
  | nil => simp [findReadyAux] at h
  | cons a rest ih =>
    cases a with
    | none =>
      simp only [findReadyAux] at h
      simp only [firstReady]
      exact ih _ h
    | some o =>
      simp only [findReadyAux, Option.some.injEq, Prod.mk.injEq] at h
      simp only [firstReady, h.1]

theorem firstReady_drop (script : List (Option Obs)) (pos : Nat)
    (hpre : ∀ j < pos, script.getD j none = none) :
    firstReady script = firstReady (script.drop pos) := by
  induction pos generalizing script with
  | zero => simp
  | succ m ih =>
    cases script with
    | nil => simp
    | cons a rest =>
      have ha : a = none := by
        have := hpre 0 (by omega)
        simpa [List.getD_cons_zero] using this
      subst ha
      rw [List.drop_succ_cons,
        show firstReady (none :: rest) = firstReady rest from rfl]
      exact ih rest (fun j hj => by
        have := hpre (j + 1) (by omega)
        simpa [List.getD_cons_succ] using this)

theorem firstReady_of_findReady (script : List (Option Obs)) (pos : Nat)
    (obs : Obs) (pos' : Nat)
    (hpre : ∀ j < pos, script.getD j none = none)
    (hfind : findReady script pos = some (obs, pos')) :
    firstReady script = some obs := by
  unfold findReady at hfind
  split at hfind
  · exact absurd hfind (by simp)
  · rename_i r haux
    rw [Option.some.injEq] at hfind
    rw [hfind] at haux
    rw [firstReady_drop script pos hpre]
    exact findReadyAux_firstReady _ pos obs _ haux

theorem firstReady_of_getD (script : List (Option Obs)) (pos : Nat)
    (obs : Obs)
    (hpre : ∀ j < pos, script.getD j none = none)
    (hobs : script.getD pos none = some obs) :
    firstReady script = some obs := by
  rw [firstReady_drop script pos hpre]
  have hdrop : (script.drop pos).getD 0 none = some obs := by
    rw [List.getD_eq_getD_get?, List.get?_drop]
    rw [List.getD_eq_getD_get?] at hobs
    simpa using hobs
  cases hd : script.drop pos with
  | nil => rw [hd] at hdrop; simp [List.getD] at hdrop
  | cons a rest =>
    rw [hd] at hdrop
    rw [List.getD_cons_zero] at hdrop
    rw [hdrop] at hd ⊢
    simp [firstReady, hdrop]

theorem ConfigConst.join_ac {a b : RunnerState} (h : ConfigConst a b) :
    b.join_agent_calls = a.join_agent_calls := h.2.2.2.1

theorem ConfigConst.sync_ep {a b : RunnerState} (h : ConfigConst a b) :
    b.sync_episodes = a.sync_episodes := h.2.2.2.2.2.1

theorem ConfigConst.train {a b : RunnerState} (h : ConfigConst a b) :
    b.trainScripts = a.trainScripts := h.2.2.2.2.2.2.2.2.2.2.1

theorem ConfigConst.evalS {a b : RunnerState} (h : ConfigConst a b) :
    b.evalScript = a.evalScript := h.2.2.2.2.2.2.2.2.2.2.2.1

theorem ConfigConst.scriptFor0 {a b : RunnerState} (h : ConfigConst a b) :
    scriptFor b 0 = scriptFor a 0 := by
  simp [scriptFor, h.train, h.evalS]

theorem handle_act_terminals (s : RunnerState) (p : Nat) (s' : RunnerState)
    (h : handle_act s p = .ok s') : s'.terminals = s.terminals := by
  unfold handle_act at h
  split at h
  · exact absurd h (by simp)
  · rw [Except.ok.injEq] at h
    rw [← h]

/-- The mid-iteration invariant for C5: outside joint mode, with the head
session contract, the trace holds no reset-after-finished, the terminal
slot lists keep their length, and under sync_episodes the head session has
either not yet produced a ready observation (its consumed script prefix is
all not-ready and its terminal slot is still the 0 placeholder) or has
just consumed its post-reset observation (terminal slot None, which makes
the barrier expression of line 412 raise before the next iteration). -/
def ResetMid (s : RunnerState) : Prop :=
  s.join_agent_calls = false ∧
  (0 < s.trainScripts.length →
    firstReadyTerminalNone (s.trainScripts.getD 0 []) = true) ∧
  noResetAfterFinished s.trace = true ∧
  s.prev_terminals.length = s.totalEnvs ∧
  s.terminals.length = s.totalEnvs ∧
  (s.sync_episodes = true → 0 < s.totalEnvs →
    s.prev_terminals.getD 0 (some 0) = some 0 ∧
    ((Slot0AllUnready s ∧ s.terminals.getD 0 none = some 0) ∨
      s.terminals.getD 0 none = none))

theorem sessionStep_resetBase (s : RunnerState) (p : Nat) (nr : Bool)
    (s' : RunnerState) (nr' : Bool) (h : sessionStep s p nr = .ok (s', nr'))
    (hI : ResetMid s) :
    s'.join_agent_calls = false ∧
    (0 < s'.trainScripts.length →
      firstReadyTerminalNone (s'.trainScripts.getD 0 []) = true) ∧
    noResetAfterFinished s'.trace = true ∧
    s'.prev_terminals.length = s'.totalEnvs ∧
    s'.terminals.length = s'.totalEnvs := by
  obtain ⟨hj, hconf, hn, hplen, htlen, -⟩ := hI
  have hc := (sessionStep_const_mono s p nr s' nr' h).1
  have hs := sessionStep_slots s p nr s' nr' h
  exact ⟨by rw [hc.join_ac]; exact hj,
    by rw [hc.train]; exact hconf,
    sessionStep_noReset s p nr s' nr' h hn,
    by rw [hs.1, hc.totalEnvs]; exact hplen,
    by rw [hs.2.1, hc.totalEnvs]; exact htlen⟩

theorem sessionStep_resetMid_ge1 (s : RunnerState) (p : Nat) (nr : Bool)
    (s' : RunnerState) (nr' : Bool) (hp : p ≠ 0)
    (h : sessionStep s p nr = .ok (s', nr')) (hI : ResetMid s) :
    ResetMid s' := by
  have hbase := sessionStep_resetBase s p nr s' nr' h hI
  obtain ⟨hj, hconf, hn, hplen, htlen, hsync⟩ := hI
  have hc := (sessionStep_const_mono s p nr s' nr' h).1
  have hs := sessionStep_slots s p nr s' nr' h
  refine ⟨hbase.1, hbase.2.1, hbase.2.2.1, hbase.2.2.2.1, hbase.2.2.2.2, ?_⟩
  intro hsy' htot'
  have hsy : s.sync_episodes = true := by rw [← hc.sync_ep]; exact hsy'
  have htot : 0 < s.totalEnvs := by rw [← hc.totalEnvs]; exact htot'
  obtain ⟨hprev0, hdisj⟩ := hsync hsy htot
  have ht0 : s'.terminals.getD 0 none = s.terminals.getD 0 none :=
    hs.2.2.1 0 (fun he => hp he.symm)
  have hpp0 : s'.pollPos.getD 0 0 = s.pollPos.getD 0 0 :=
    hs.2.2.2 0 (fun he => hp he.symm)
  refine ⟨by rw [hs.1]; exact hprev0, ?_⟩
  rcases hdisj with ⟨hpref, hsome⟩ | hnone
  · left
    refine ⟨?_, by rw [ht0]; exact hsome⟩
    intro j hj'
    rw [hpp0] at hj'
    rw [hc.scriptFor0]
    exact hpref j hj'
  · right
    rw [ht0]
    exact hnone

theorem getD_default_irrel {α : Type} (l : List α) (i : Nat) (d1 d2 : α)
    (h : i < l.length) : l.getD i d1 = l.getD i d2 := by
  rw [List.getD_eq_getElem l d1 h, List.getD_eq_getElem l d2 h]

theorem conf_first_terminal_none (script : List (Option Obs)) (obs : Obs)
    (hcf : firstReadyTerminalNone script = true)
    (hfr : firstReady script = some obs) : obs.terminal = none := by
  unfold firstReadyTerminalNone at hcf
  rw [hfr] at hcf
  have hcf2 : (obs.terminal == none) = true := hcf
  cases hob : obs.terminal with
  | none => rfl
  | some t =>
    rw [hob] at hcf2
    simp at hcf2

theorem route_eval_absurd (sA : RunnerState) (s2 : RunnerState)
    (hroute : routeObservation sA 0 true = .ok s2) : False := by
  unfold routeObservation at hroute
  split at hroute
  · simp [handle_act_evaluation] at hroute
  · simp [handle_observe_evaluation] at hroute

theorem route_consume_slot0 (s : RunnerState) (pl : List Nat) (obs : Obs)
    (s2 : RunnerState)
    (hterm_none : obs.terminal = none)
    (hlen : 0 < s.terminals.length)
    (hev : (0 == s.trainScripts.length) = false)
    (hroute : routeObservation
      (consumeObservation { s with pollPos := pl } 0 obs) 0
      (0 == s.trainScripts.length) = .ok s2) :
    s2.terminals.getD 0 none = none := by
  have hA : (consumeObservation { s with pollPos := pl } 0 obs).terminals.getD
      0 none = none := by
    simp only [consumeObservation]
    rw [getD_set_self _ 0 _ none hlen]
    exact hterm_none
  rw [hev] at hroute
  unfold routeObservation at hroute
  rw [hA] at hroute
  simp only [Bool.false_eq_true, if_false] at hroute
  rw [handle_act_terminals _ 0 s2 hroute]
  exact hA

theorem sessionStep_resetMid_0 (s : RunnerState) (nr : Bool)
    (s' : RunnerState) (nr' : Bool) (h0 : 0 < s.totalEnvs)
    (h : sessionStep s 0 nr = .ok (s', nr')) (hI : ResetMid s)
    (hstart : s.sync_episodes = true → s.terminals.getD 0 none = some 0) :
    ResetMid s' := by
  have hbase := sessionStep_resetBase s 0 nr s' nr' h hI
  obtain ⟨hj, hconf, hn, hplen, htlen, hsync⟩ := hI
  have hc := (sessionStep_const_mono s 0 nr s' nr' h).1
  have hs := sessionStep_slots s 0 nr s' nr' h
  refine ⟨hbase.1, hbase.2.1, hbase.2.2.1, hbase.2.2.2.1, hbase.2.2.2.2, ?_⟩
  intro hsy' _htot'
  have hsy : s.sync_episodes = true := by rw [← hc.sync_ep]; exact hsy'
  obtain ⟨hprev0, hdisj⟩ := hsync hsy h0
  refine ⟨by rw [hs.1]; exact hprev0, ?_⟩
  have hterm0 : s.terminals.getD 0 none = some 0 := hstart hsy
  have hpref : Slot0AllUnready s := by
    rcases hdisj with ⟨hp, -⟩ | hnone
    · exact hp
    · exact absurd (hterm0.symm.trans hnone) (by simp)
  have htl : 0 < s.terminals.length := by rw [htlen]; exact h0
  unfold sessionStep at h
  split at h
  · split at h
    · exact absurd h (by simp)
    · rename_i t hmt
      have ht : t = 0 := by
        have h2 := hprev0.symm.trans hmt
        simp at h2
        omega
      subst ht
      rw [if_neg (by omega)] at h
      unfold sessionPoll at h
      rw [if_neg (by simp [hj])] at h
      split at h
      · -- sync_timesteps busy poll
        split at h
        · exact absurd h (by simp)
        · rename_i obs pos' hfind
          split at h
          · exact absurd h (by simp)
          · rename_i s2 hroute
            rw [Except.ok.injEq, Prod.mk.injEq] at h
            rw [← h.1]
            by_cases hlen : 0 < s.trainScripts.length
            · have hfr : firstReady (scriptFor s 0) = some obs :=
                firstReady_of_findReady _ _ _ _ hpref hfind
              have hcf : firstReadyTerminalNone (scriptFor s 0) = true := by
                rw [show scriptFor s 0 = s.trainScripts.getD 0 [] from by
                  simp [scriptFor, hlen]]
                exact hconf hlen
              have htn : obs.terminal = none :=
                conf_first_terminal_none _ _ hcf hfr
              have hev : (0 == s.trainScripts.length) = false := by
                cases hL : s.trainScripts.length with
                | zero => rw [hL] at hlen; omega
                | succ m => rfl
              exact Or.inr (route_consume_slot0 s _ obs s2 htn htl hev hroute)
            · have hL0 : s.trainScripts.length = 0 := by omega
              have hev : (0 == s.trainScripts.length) = true := by
                rw [hL0]
                rfl
              rw [hev] at hroute
              exact absurd hroute (fun hr => route_eval_absurd _ s2 hr)
      · -- unsynced single poll
        split at h
        · rename_i hnone
          rw [Except.ok.injEq, Prod.mk.injEq] at h
          rw [← h.1]
          left
          refine ⟨?_, hterm0⟩
          intro j hj'
          by_cases hpl : 0 < s.pollPos.length
          · rw [getD_set_self _ 0 _ 0 hpl] at hj'
            rcases Nat.lt_succ_iff_lt_or_eq.mp hj' with hlt | heq
            · exact hpref j hlt
            · rw [heq]
              exact hnone
          · rw [List.set_eq_of_length_le (by omega)] at hj'
            exact hpref j hj'
        · rename_i obs hobs
          split at h
          · exact absurd h (by simp)
          · rename_i s2 hroute
            rw [Except.ok.injEq, Prod.mk.injEq] at h
            rw [← h.1]
            by_cases hlen : 0 < s.trainScripts.length
            · have hfr : firstReady (scriptFor s 0) = some obs :=
                firstReady_of_getD _ _ _ hpref hobs
              have hcf : firstReadyTerminalNone (scriptFor s 0) = true := by
                rw [show scriptFor s 0 = s.trainScripts.getD 0 [] from by
                  simp [scriptFor, hlen]]
                exact hconf hlen
              have htn : obs.terminal = none :=
                conf_first_terminal_none _ _ hcf hfr
              have hev : (0 == s.trainScripts.length) = false := by
                cases hL : s.trainScripts.length with
                | zero => rw [hL] at hlen; omega
                | succ m => rfl
              exact Or.inr (route_consume_slot0 s _ obs s2 htn htl hev hroute)
            · have hL0 : s.trainScripts.length = 0 := by omega
              have hev : (0 == s.trainScripts.length) = true := by
                rw [hL0]
                rfl
              rw [hev] at hroute
              exact absurd hroute (fun hr => route_eval_absurd _ s2 hr)
  · rename_i hns
    exact absurd hsy hns

theorem sessionsFrom_resetMid_ge1 :
    ∀ (n i : Nat), 1 ≤ i →
      ∀ (s : RunnerState) (nr : Bool) (s' : RunnerState) (nr' : Bool),
        ResetMid s → sessionsFrom i n s nr = .ok (s', nr') → ResetMid s' := by
  intro n
  induction n with
  | zero =>
    intro i hi s nr s' nr' hI h
    simp only [sessionsFrom, Except.ok.injEq, Prod.mk.injEq] at h
    rw [← h.1]
    exact hI
  | succ n ih =>
    intro i hi s nr s' nr' hI h
    simp only [sessionsFrom] at h
    split at h
    · exact absurd h (by simp)
    · rename_i s1 nr1 hstep
      have hI1 := sessionStep_resetMid_ge1 s i nr s1 nr1 (by omega) hstep hI
      exact ih (i + 1) (by omega) s1 nr1 s' nr' hI1 h

theorem sessionsFrom_resetMid (n : Nat) (s : RunnerState) (nr : Bool)
    (s' : RunnerState) (nr' : Bool) (hb : n ≤ s.totalEnvs)
    (hI : ResetMid s)
    (hstart : s.sync_episodes = true → 0 < s.totalEnvs →
      s.terminals.getD 0 none = some 0)
    (h : sessionsFrom 0 n s nr = .ok (s', nr')) : ResetMid s' := by
  cases n with
  | zero =>
    simp only [sessionsFrom, Except.ok.injEq, Prod.mk.injEq] at h
    rw [← h.1]
    exact hI
  | succ m =>
    simp only [sessionsFrom] at h
    split at h
    · exact absurd h (by simp)
    · rename_i s1 nr1 hstep
      have h0lt : 0 < s.totalEnvs := by omega
      have hI1 := sessionStep_resetMid_0 s nr s1 nr1 h0lt hstep hI
        (fun hsy => hstart hsy h0lt)
      exact sessionsFrom_resetMid_ge1 m 1 (by omega) s1 nr1 s' nr' hI1 h

theorem allGreaterZero_ok_head (l : List (Option Int)) (b : Bool)
    (h : allGreaterZero l = .ok b) :
    l = [] ∨ ∃ t, l.getD 0 none = some t := by
  cases l with
  | nil => exact Or.inl rfl
  | cons a rest =>
    cases a with
    | none => simp [allGreaterZero] at h
    | some t => exact Or.inr ⟨t, by rw [List.getD_cons_zero]⟩

theorem allGreaterZero_true_head (l : List (Option Int))
    (h : allGreaterZero l = .ok true) (hne : l ≠ []) :
    ∃ t, l.getD 0 none = some t ∧ 0 < t := by
  cases l with
  | nil => exact absurd rfl hne
  | cons a rest =>
    cases a with
    | none => simp [allGreaterZero] at h
    | some t =>
      simp only [allGreaterZero] at h
      split at h
      · rename_i hpos
        exact ⟨t, by rw [List.getD_cons_zero], hpos⟩
      · simp at h

/-- The between-iterations invariant for C5. -/
def ResetInv (s : RunnerState) : Prop :=
  s.join_agent_calls = false ∧
  (0 < s.trainScripts.length →
    firstReadyTerminalNone (s.trainScripts.getD 0 []) = true) ∧
  noResetAfterFinished s.trace = true ∧
  s.prev_terminals.length = s.totalEnvs ∧
  (s.sync_episodes = true → 0 < s.totalEnvs →
    Slot0AllUnready s ∧ s.prev_terminals.getD 0 (some 0) = some 0)

theorem iteration_resetInv (s : RunnerState) (s' : RunnerState)
    (hI : ResetInv s) (h : iteration s = .ok s') : ResetInv s' := by
  obtain ⟨hj, hconf, hn, hplen, hsync⟩ := hI
  simp only [iteration] at h
  split at h
  · exact absurd h (by simp)
  · split at h
    · exact absurd h (by simp)
    · rename_i s1 nr1 hsf
      have hM0 : ResetMid { s with terminals := s.prev_terminals } := by
        refine ⟨hj, hconf, hn, hplen, hplen, ?_⟩
        intro hsy htot
        have hl : 0 < s.prev_terminals.length := by rw [hplen]; exact htot
        have hterm : s.prev_terminals.getD 0 none = some 0 := by
          rw [getD_default_irrel _ 0 none (some 0) hl]
          exact (hsync hsy htot).2
        exact ⟨(hsync hsy htot).2, Or.inl ⟨(hsync hsy htot).1, hterm⟩⟩
      have hM1 : ResetMid s1 := by
        refine sessionsFrom_resetMid _ _ true s1 nr1 (by omega) hM0 ?_ hsf
        intro hsy h0
        have hl : 0 < s.prev_terminals.length := by rw [hplen]; exact h0
        show s.prev_terminals.getD 0 none = some 0
        rw [getD_default_irrel _ 0 none (some 0) hl]
        exact (hsync hsy h0).2
      obtain ⟨hj1, hconf1, hn1, hplen1, htlen1, hsync1⟩ := hM1
      split at h
      · rename_i hsy1
        split at h
        · exact absurd h (by simp)
        · rename_i hallt
          rw [Except.ok.injEq] at h
          rw [← h]
          by_cases h0 : 0 < s1.totalEnvs
          · exfalso
            have hne : s1.terminals ≠ [] := by
              intro hnil
              rw [hnil] at htlen1
              simp at htlen1
              omega
            obtain ⟨t, hget, hpos⟩ := allGreaterZero_true_head _ hallt hne
            obtain ⟨hp0, hdisj⟩ := hsync1 hsy1 h0
            rcases hdisj with ⟨-, hsome⟩ | hnone
            · rw [hget] at hsome
              simp at hsome
              omega
            · rw [hget] at hnone
              simp at hnone
          · have hz : s1.totalEnvs = 0 := by omega
            refine ⟨hj1, hconf1, ?_, ?_, ?_⟩
            · show noResetAfterFinished (s1.trace ++
                (List.range s1.totalEnvs).map
                  (fun i => Event.startReset i s1.finished)) = true
              rw [hz]
              simpa using hn1
            · show (List.replicate s1.totalEnvs (some (0 : Int))).length =
                s1.totalEnvs
              simp
            · intro hsy htot
              have h0' : 0 < s1.totalEnvs := htot
              omega
        · rename_i hallf
          rw [Except.ok.injEq] at h
          rw [← h]
          refine ⟨hj1, hconf1, hn1, htlen1, ?_⟩
          intro hsy htot
          have h0' : 0 < s1.totalEnvs := htot
          obtain ⟨hp0, hdisj⟩ := hsync1 hsy1 h0'
          have hne : s1.terminals ≠ [] := by
            intro hnil
            rw [hnil] at htlen1
            simp at htlen1
            omega
          rcases allGreaterZero_ok_head _ _ hallf with hnil | ⟨t, hget⟩
          · exact absurd hnil hne
          · rcases hdisj with ⟨hpref, hsome⟩ | hnone
            · refine ⟨hpref, ?_⟩
              have hl : 0 < s1.terminals.length := by
                rw [htlen1]
                exact h0'
              show s1.terminals.getD 0 (some 0) = some 0
              rw [getD_default_irrel _ 0 (some 0) none hl]
              exact hsome
            · rw [hget] at hnone
              simp at hnone
      · rename_i hsy1
        rw [Except.ok.injEq] at h
        rw [← h]
        refine ⟨hj1, hconf1, hn1, htlen1, ?_⟩
        intro hsy htot
        exact absurd hsy hsy1

theorem getD_replicate_self {α : Type} (n i : Nat) (a d : α) (hi : i < n) :
    (List.replicate n a).getD i d = a := by
  rw [List.getD_eq_getElem _ d (by simpa using hi)]
  simp

/-- C5: in every gracefully completed run, no start_reset is ever issued
while finished is set, under every synchronization policy.  The only
unguarded start_reset site is the sync_episodes barrier of lines 413 to
416, and for a head session honouring the reset contract (its first ready
observation carries terminal None) that barrier is unreachable: the
iteration that consumes the head session post-reset observation leaves a
None terminal at index 0, which makes the line 412 generator raise
TypeError before the barrier, so such a run is not a completed run.  The
resets at lines 558 and 591 are explicitly guarded by `not finished`, and
the prologue resets of lines 286 and 298 happen with finished false. -/
theorem c5_no_reset_after_finished (init : RunnerInit) (cfg : RunConfig)
    (fuel : Nat) (s' : RunnerState)
    (hconf : 0 < init.trainScripts.length →
      firstReadyTerminalNone (init.trainScripts.getD 0 []) = true)
    (h : runRunner init cfg fuel = .ok s') :
    noResetAfterFinished s'.trace = true := by
  simp only [runRunner] at h
  split at h
  · exact absurd h (by simp)
  · split at h
    · exact absurd h (by simp)
    · split at h
      · exact absurd h (by simp)
      · rename_i hjoin
        have hj : (mkState init cfg).join_agent_calls = false := by
          revert hjoin
          cases (mkState init cfg).join_agent_calls <;> simp
        have hI0 : ResetInv (mkState init cfg) := by
          refine ⟨hj, hconf, ?_, ?_, ?_⟩
          · simp only [mkState, noResetAfterFinished, List.all_cons,
              Bool.and_eq_true, List.all_eq_true]
            refine ⟨rfl, ?_⟩
            intro e he
            obtain ⟨i, -, rfl⟩ := List.mem_map.mp he
            rfl
          · show (List.replicate init.totalEnvs (some (0 : Int))).length =
              (mkState init cfg).totalEnvs
            simp [mkState, mkStateCore, RunnerState.totalEnvs,
              RunnerInit.totalEnvs]
          · intro hsy htot
            constructor
            · intro j hj'
              have hz : (mkState init cfg).pollPos.getD 0 0 = 0 := by
                show (List.replicate init.totalEnvs 0).getD 0 0 = 0
                by_cases hi : 0 < init.totalEnvs
                · exact getD_replicate_self _ _ _ _ hi
                · refine List.getD_eq_default _ _ ?_
                  rw [List.length_replicate]
                  omega
              rw [hz] at hj'
              omega
            · show (List.replicate init.totalEnvs (some (0 : Int))).getD 0
                (some 0) = some 0
              refine getD_replicate_self _ _ _ _ ?_
              exact htot
        have hI := runLoop_preserve ResetInv
          (fun a a' hP hstep => iteration_resetInv a a' hP hstep)
          fuel _ s' hI0 h
        exact hI.2.2.1

/-- Witness for c5_no_reset_after_finished at the concrete demo run. -/
theorem c5_no_reset_after_finished_witness :
    noResetAfterFinished
      (stateOf (runRunner demoInit1 demoCfgTs1 5)).trace = true :=
  c5_no_reset_after_finished demoInit1 demoCfgTs1 5
    (stateOf (runRunner demoInit1 demoCfgTs1 5)) (by decide) rfl
